import Mathlib

/-!
Verification development for the Load3D packing engine core.

The TypeScript sources are shallowly embedded over exact rationals:
every JavaScript number is modelled as a value of the rational numbers,
and every source function is translated into a computable Lean function
with the same name and structure. Wall-clock time (the pattern-evaluation
budget) is modelled by an explicit oracle, and the one unbounded source
loop (calculateCoilLoading) is modelled with explicit fuel, with a run
that exhausts every fuel representing divergence of the source loop.

The repository files contain several superseding revisions of the same
modules, separated by document markers. The revisions embedded here are
the ones the verified claims point at: GeometryUtils with the roll/roll
priority check (EPSILON 0.001), the PackingEngine revision that routes
roll groups through calculateCoilLoading, BoxStrategy with the corner
point search, RollStrategy with the dense lattice, and PalletStrategy
with the scanning search.
-/

set_option allowUnsafeReducibility true

set_option maxRecDepth 100000

attribute [semireducible] Rat.mul Rat.add Rat.sub Rat.div Rat.inv Rat.blt Rat.ofScientific

namespace Load3D

/-- Model of the IEEE double produced by the JavaScript expression Math.PI,
truncated to the 16 significant decimal digits JavaScript prints. The exact
low-order bits never influence any verified statement. -/
def jsPI : ℚ := 3.141592653589793

/-- Model of the IEEE double produced by Math.sin(Math.PI / 3), truncated to
16 significant decimal digits. Used only in calculateCoilLoading, where the
verified statements depend on its sign and coarse size only. -/
def jsSin60 : ℚ := 0.8660254037844386

/-- Math.abs on rationals. -/
def jsAbs (q : ℚ) : ℚ := if q < 0 then -q else q

/-- Math.floor, yielding an integer. JavaScript would return Infinity on
division by zero before flooring; the rational model yields 0 there. No
verified statement evaluates a floor of a division by zero. -/
def jsFloor (q : ℚ) : ℤ := q.floor

/-- Math.min on rationals. -/
def jsMin (a b : ℚ) : ℚ := if a ≤ b then a else b

/-- Math.max on rationals. -/
def jsMax (a b : ℚ) : ℚ := if a ≤ b then b else a

/-- Decides the statement that the absolute difference of the square root of
s (a sum of squares, hence nonnegative) and the target o is below t. This is
the exact rational characterization of the JavaScript test
Math.abs(Math.sqrt(s) - o) < t used by RollStrategy.hasSufficientSupport:
sqrt s < o + t iff o + t is positive and s < (o + t) squared, and
o - t < sqrt s iff o - t is negative or (o - t) squared < s. -/
def sqrtAbsDiffLt (s o t : ℚ) : Bool :=
  (decide (0 < o + t) && decide (s < (o + t) ^ 2)) &&
  (decide (o - t < 0) || decide ((o - t) ^ 2 < s))

/-- Insert for the stable insertion sort: lt a b means the comparator orders
a strictly before b. An element is inserted after every element it is not
strictly before, which is exactly the stable order ECMAScript sort produces. -/
def insertBy (lt : α → α → Bool) (x : α) : List α → List α
  | [] => [x]
  | y :: ys => if lt y x then y :: insertBy lt x ys else x :: y :: ys

/-- Stable sort modelling Array.prototype.sort with a consistent comparator. -/
def sortBy (lt : α → α → Bool) : List α → List α
  | [] => []
  | x :: xs => insertBy lt x (sortBy lt xs)

theorem length_insertBy (lt : α → α → Bool) (x : α) (l : List α) :
    (insertBy lt x l).length = l.length + 1 := by
  induction l with
  | nil => rfl
  | cons y ys ih =>
      simp only [insertBy]
      by_cases h : lt y x = true
      · simp [h, ih]
      · simp [h]

theorem length_sortBy (lt : α → α → Bool) (l : List α) :
    (sortBy lt l).length = l.length := by
  induction l with
  | nil => rfl
  | cons x xs ih => simp [sortBy, length_insertBy, ih]

/-! ## Data model (core/types/index.ts) -/

/-- CargoType from core/types: the three shape kinds. -/
inductive CargoType where
  | box
  | roll
  | pallet
deriving DecidableEq, Repr

/-- RollOrientation from core/types. -/
inductive RollOrientation where
  | vertical
  | horizontal
deriving DecidableEq, Repr

/-- IVector3 from core/types. -/
structure IVector3 where
  x : ℚ
  y : ℚ
  z : ℚ
deriving DecidableEq, Repr

/-- IDimensions from core/types. -/
structure IDimensions where
  length : ℚ
  width : ℚ
  height : ℚ
deriving DecidableEq, Repr

/-- IRollDimensions from core/types. -/
structure IRollDimensions where
  diameter : ℚ
  length : ℚ
deriving DecidableEq, Repr

/-- ICargoItem from core/types, restricted to the fields the engine reads
(name, stackable, fragile and color are never consulted by the packing
core). Optional fields are Options; isPalletized is an optional boolean as
in the source, where an absent flag and an explicit false behave alike. -/
structure ICargoItem where
  id : String
  type : CargoType
  weight : Option ℚ
  quantity : ℕ
  dimensions : Option IDimensions
  rollDimensions : Option IRollDimensions
  palletDimensions : Option IDimensions
  isPalletized : Option Bool
deriving DecidableEq, Repr

/-- IContainer from core/types, restricted to the fields the engine reads. -/
structure IContainer where
  dimensions : IDimensions
  maxWeight : ℚ
deriving DecidableEq, Repr

/-- The rotation stored on a placed item. The slot and strategy paths store
a number; the coil-loading path stores an x, y, z triple of Euler angles.
The engine never reads the field back, but the embedding keeps both shapes. -/
inductive JsRotation where
  | num (q : ℚ)
  | vec (x y z : ℚ)
deriving DecidableEq, Repr

/-- IPlacedItem from core/types (itemId duplicates item.id in the engine). -/
structure IPlacedItem where
  itemId : String
  item : ICargoItem
  position : IVector3
  rotation : JsRotation
  orientation : Option RollOrientation
  dimensions : IDimensions
deriving DecidableEq, Repr

/-- ILoadingResult from core/types. The executionTime field is wall-clock
time in the source; the model pins it to 0. -/
structure ILoadingResult where
  placedItems : List IPlacedItem
  unplacedItems : List ICargoItem
  utilizationPercent : ℚ
  totalWeight : ℚ
  executionTime : ℚ
deriving DecidableEq, Repr

/-- IPackingContext from core/types, restricted to the fields strategies
read (activeLayer is constructed but never consulted). -/
structure IPackingContext where
  container : IContainer
  placedItems : List IPlacedItem
deriving Repr

/-! ## GeometryUtils (core/math/GeometryUtils.ts, roll-priority revision) -/

namespace GeometryUtils

/-- The EPSILON constant of the embedded GeometryUtils revision. -/
def EPSILON : ℚ := 0.001

/-- The ALLOWED_OVERLAP constant of the cylinder math. -/
def ALLOWED_OVERLAP : ℚ := 0.005

/-- checkIntervalOverlap: open interval overlap with EPSILON shaved off both
touching edges. -/
def checkIntervalOverlap (min1 len1 min2 len2 : ℚ) : Bool :=
  decide (min1 < min2 + len2 - EPSILON) && decide (min1 + len1 > min2 + EPSILON)

/-- checkAABBIntersection: axis-aligned box overlap on all three axes. -/
def checkAABBIntersection (pos1 : IVector3) (dim1 : IDimensions)
    (pos2 : IVector3) (dim2 : IDimensions) : Bool :=
  decide (pos1.x < pos2.x + dim2.length - EPSILON) &&
  decide (pos1.x + dim1.length > pos2.x + EPSILON) &&
  decide (pos1.y < pos2.y + dim2.height - EPSILON) &&
  decide (pos1.y + dim1.height > pos2.y + EPSILON) &&
  decide (pos1.z < pos2.z + dim2.width - EPSILON) &&
  decide (pos1.z + dim1.width > pos2.z + EPSILON)

/-- isWithinBounds: minimum corner at least minus EPSILON, maxima at most
the container dimension plus EPSILON. -/
def isWithinBounds (position : IVector3) (dimensions : IDimensions)
    (containerDimensions : IDimensions) : Bool :=
  decide (position.x ≥ -EPSILON) &&
  decide (position.y ≥ -EPSILON) &&
  decide (position.z ≥ -EPSILON) &&
  decide (position.x + dimensions.length ≤ containerDimensions.length + EPSILON) &&
  decide (position.y + dimensions.height ≤ containerDimensions.height + EPSILON) &&
  decide (position.z + dimensions.width ≤ containerDimensions.width + EPSILON)

/-- checkCylinderCylinderIntersection: fine cylinder math for two rolls.
Identical orientations compare cross-section center distances against the
radius sum minus ALLOWED_OVERLAP; mixed orientations (and horizontal rolls
on different long axes) fall through to the conservative true. -/
def checkCylinderCylinderIntersection (pos1 : IVector3) (dim1 : IDimensions)
    (orient1 : RollOrientation) (pos2 : IVector3) (dim2 : IDimensions)
    (orient2 : RollOrientation) : Bool :=
  match orient1, orient2 with
  | RollOrientation.vertical, RollOrientation.vertical =>
      if !(checkIntervalOverlap pos1.y dim1.height pos2.y dim2.height) then false
      else
        let r1 := dim1.length / 2
        let r2 := dim2.length / 2
        let distSq := (pos1.x + r1 - (pos2.x + r2)) ^ 2 + (pos1.z + r1 - (pos2.z + r2)) ^ 2
        let minAllowedDist := r1 + r2 - ALLOWED_OVERLAP
        decide (distSq < minAllowedDist * minAllowedDist)
  | RollOrientation.horizontal, RollOrientation.horizontal =>
      let isX1 := decide (dim1.length > dim1.width)
      let isX2 := decide (dim2.length > dim2.width)
      if isX1 = isX2 then
        let longAxisOverlap :=
          if isX1 then checkIntervalOverlap pos1.x dim1.length pos2.x dim2.length
          else checkIntervalOverlap pos1.z dim1.width pos2.z dim2.width
        if !longAxisOverlap then false
        else
          let r1 := dim1.height / 2
          let r2 := dim2.height / 2
          let distSq :=
            if isX1 then
              (pos1.y + r1 - (pos2.y + r2)) ^ 2 + (pos1.z + r1 - (pos2.z + r2)) ^ 2
            else
              (pos1.x + r1 - (pos2.x + r2)) ^ 2 + (pos1.y + r1 - (pos2.y + r2)) ^ 2
          let minAllowedDist := r1 + r2 - ALLOWED_OVERLAP
          decide (distSq < minAllowedDist * minAllowedDist)
      else true
  | _, _ => true

/-- checkBoxCylinderIntersection: clamp the cylinder center onto the box
footprint in the cross-section plane and compare against the radius minus
ALLOWED_OVERLAP, combined with an interval check along the cylinder axis. -/
def checkBoxCylinderIntersection (boxPos : IVector3) (boxDim : IDimensions)
    (cylPos : IVector3) (cylDim : IDimensions) (cylOrient : RollOrientation) : Bool :=
  let radius := (if cylOrient = RollOrientation.vertical then cylDim.length else cylDim.height) / 2
  match cylOrient with
  | RollOrientation.vertical =>
      let cx := cylPos.x + radius
      let cz := cylPos.z + radius
      let clampedX := jsMax boxPos.x (jsMin cx (boxPos.x + boxDim.length))
      let clampedZ := jsMax boxPos.z (jsMin cz (boxPos.z + boxDim.width))
      let distSq := (cx - clampedX) ^ 2 + (cz - clampedZ) ^ 2
      let yOverlap := checkIntervalOverlap boxPos.y boxDim.height cylPos.y cylDim.height
      let minDist := radius - ALLOWED_OVERLAP
      yOverlap && decide (distSq < minDist * minDist)
  | RollOrientation.horizontal =>
      let isXAxis := decide (cylDim.length > cylDim.width)
      if isXAxis then
        let cy := cylPos.y + radius
        let cz := cylPos.z + radius
        let clampedY := jsMax boxPos.y (jsMin cy (boxPos.y + boxDim.height))
        let clampedZ := jsMax boxPos.z (jsMin cz (boxPos.z + boxDim.width))
        let distSq := (cy - clampedY) ^ 2 + (cz - clampedZ) ^ 2
        let xOverlap := checkIntervalOverlap boxPos.x boxDim.length cylPos.x cylDim.length
        let minDist := radius - ALLOWED_OVERLAP
        xOverlap && decide (distSq < minDist * minDist)
      else
        let cx := cylPos.x + radius
        let cy := cylPos.y + radius
        let clampedX := jsMax boxPos.x (jsMin cx (boxPos.x + boxDim.length))
        let clampedY := jsMax boxPos.y (jsMin cy (boxPos.y + boxDim.height))
        let distSq := (cx - clampedX) ^ 2 + (cy - clampedY) ^ 2
        let zOverlap := checkIntervalOverlap boxPos.z boxDim.width cylPos.z cylDim.width
        let minDist := radius - ALLOWED_OVERLAP
        zOverlap && decide (distSq < minDist * minDist)

/-- checkIntersection of the roll-priority revision: roll/roll pairs go
straight to cylinder math, everything else is screened by the AABB test,
then box/box is decided by it, and mixed roll/other pairs use the
box-cylinder test. The source defaults item types to box and orientations
to vertical; callers that rely on the defaults pass them explicitly here. -/
def checkIntersection (pos1 : IVector3) (dim1 : IDimensions)
    (pos2 : IVector3) (dim2 : IDimensions)
    (item1Type item2Type : CargoType) (orientation1 orientation2 : RollOrientation) : Bool :=
  if item1Type = CargoType.roll ∧ item2Type = CargoType.roll then
    checkCylinderCylinderIntersection pos1 dim1 orientation1 pos2 dim2 orientation2
  else if !(checkAABBIntersection pos1 dim1 pos2 dim2) then false
  else if item1Type = CargoType.box ∧ item2Type = CargoType.box then true
  else if item1Type = CargoType.roll ∧ item2Type ≠ CargoType.roll then
    checkBoxCylinderIntersection pos2 dim2 pos1 dim1 orientation1
  else if item1Type ≠ CargoType.roll ∧ item2Type = CargoType.roll then
    checkBoxCylinderIntersection pos1 dim1 pos2 dim2 orientation2
  else true

end GeometryUtils

/-- The result record a packing strategy returns from findBestPosition.
BoxStrategy and PalletStrategy leave orientation absent; RollStrategy fills
it. The dimensions field is optional in the source interface, so it is an
Option here, though every strategy fills it on success. -/
structure StrategyResult where
  position : IVector3
  rotation : ℚ
  orientation : Option RollOrientation
  dimensions : Option IDimensions
deriving DecidableEq, Repr

/-! ## RollStrategy (core/strategies/RollStrategy.ts, dense-lattice revision) -/

namespace RollStrategy

/-- A candidate lattice point with its ordering score. -/
structure CandidatePoint where
  position : IVector3
  score : ℚ
deriving DecidableEq, Repr

/-- An orientation option for a roll: resolved bounding dimensions, the
rotation to report, and the orientation tag. -/
structure OrientationOption where
  dimensions : IDimensions
  rotation : ℚ
  orientation : RollOrientation
deriving DecidableEq, Repr

/-- getOrientations: vertical always, the two horizontal axes only when the
item is not palletized. -/
def getOrientations (diameter length : ℚ) (isPalletized : Option Bool) :
    List OrientationOption :=
  let vertical : OrientationOption :=
    { dimensions := { length := diameter, width := diameter, height := length }
      rotation := 0
      orientation := RollOrientation.vertical }
  if isPalletized.getD false = false then
    [vertical,
     { dimensions := { length := length, width := diameter, height := diameter }
       rotation := 0
       orientation := RollOrientation.horizontal },
     { dimensions := { length := diameter, width := length, height := diameter }
       rotation := 90
       orientation := RollOrientation.horizontal }]
  else [vertical]

/-- Model of the toFixed(2) deduplication key used by generateCandidatePoints:
the coordinate scaled by 100 and rounded. On the lattice coordinates arising
in the verified runs this agrees exactly with the JavaScript string key. -/
def toFixed2Key (q : ℚ) : ℤ := (q * 100 + 1 / 2).floor

/-- The vertical stacking levels generated by the while loop of
generateCandidatePoints: multiples of the roll length starting at one roll
length, as long as the next roll still fits below height + 0.05, and only
when the roll length exceeds 0.1 (the loop guard of the source). -/
def stackLevels (containerHeight length : ℚ) : List ℚ :=
  if 0.1 < length then
    (List.range (((containerHeight + 0.05) / length).floor - 1).toNat).map
      (fun k => ((k : ℚ) + 1) * length)
  else []

/-- One addPoint step of generateCandidatePoints: drop the point if outside
the container inflated by the tolerance 0.01, deduplicate on the rounded
key, otherwise append it with score y * 10000 + z * 100 + x. -/
def addPoint (containerDims : IDimensions)
    (acc : List (ℤ × ℤ × ℤ) × List CandidatePoint) (p : IVector3) :
    List (ℤ × ℤ × ℤ) × List CandidatePoint :=
  let TOL : ℚ := 0.01
  if decide (p.x < -TOL) || decide (p.y < -TOL) || decide (p.z < -TOL) then acc
  else if decide (p.x > containerDims.length + TOL) ||
          decide (p.y > containerDims.height + TOL) ||
          decide (p.z > containerDims.width + TOL) then acc
  else
    let key := (toFixed2Key p.x, toFixed2Key p.y, toFixed2Key p.z)
    if acc.1.contains key then acc
    else
      (key :: acc.1,
       acc.2 ++ [{ position := p, score := p.y * 10000 + p.z * 100 + p.x }])

/-- The ordered point proposals of the Z-direction lattice: rows along the
depth axis spaced by the hex step, odd rows shifted by the radius, each
column contributing its floor point and then its stack levels. -/
def proposalsZ (containerDims : IDimensions) (diameter length hexStep : ℚ)
    (zRows xCols : ℕ) : List IVector3 :=
  (List.range zRows).flatMap (fun row =>
    (List.range xCols).flatMap (fun col =>
      let z := (row : ℚ) * hexStep
      let xOffset : ℚ := if row % 2 = 1 then diameter / 2 else 0
      let x := (col : ℚ) * diameter + xOffset
      IVector3.mk x 0 z ::
        (stackLevels containerDims.height length).map (fun y => IVector3.mk x y z)))

/-- The ordered point proposals of the X-direction lattice. -/
def proposalsX (containerDims : IDimensions) (diameter length hexStep : ℚ)
    (xRows zCols : ℕ) : List IVector3 :=
  (List.range xRows).flatMap (fun row =>
    (List.range zCols).flatMap (fun col =>
      let x := (row : ℚ) * hexStep
      let zOffset : ℚ := if row % 2 = 1 then diameter / 2 else 0
      let z := (col : ℚ) * diameter + zOffset
      IVector3.mk x 0 z ::
        (stackLevels containerDims.height length).map (fun y => IVector3.mk x y z)))

/-- generateCandidatePoints: build the dense hexagonal lattice in whichever
row direction has the larger analytic capacity, deduplicate, and sort by
score ascending (lowest layer, then back, then left first). -/
def generateCandidatePoints (placedItems : List IPlacedItem)
    (containerDims : IDimensions) (diameter length : ℚ) : List CandidatePoint :=
  let hexStep := diameter * 0.8660254
  if decide (hexStep < 0.01) then []
  else
    let zRowsCount := ((containerDims.width - diameter) / hexStep).floor + 2
    let xColsCount := (containerDims.length / diameter).floor + 1
    let capZ := zRowsCount * xColsCount
    let xRowsCount := ((containerDims.length - diameter) / hexStep).floor + 2
    let zColsCount := (containerDims.width / diameter).floor + 1
    let capX := xRowsCount * zColsCount
    let proposals :=
      if capX > capZ then
        proposalsX containerDims diameter length hexStep xRowsCount.toNat zColsCount.toNat
      else
        proposalsZ containerDims diameter length hexStep zRowsCount.toNat xColsCount.toNat
    let pts := (proposals.foldl (addPoint containerDims) ([], [])).2
    sortBy (fun a b => decide (a.score < b.score)) pts

/-- getSupportingItems: placed items whose top face is within 0.05 of the
candidate bottom and whose footprint, inflated by 0.05, overlaps the
candidate footprint (heights flattened to 1 for the AABB test). -/
def getSupportingItems (pos : IVector3) (dims : IDimensions)
    (placedItems : List IPlacedItem) : List IPlacedItem :=
  let epsilon : ℚ := 0.05
  placedItems.filter (fun item =>
    let itemTop := item.position.y + item.dimensions.height
    decide (jsAbs (itemTop - pos.y) < epsilon) &&
    GeometryUtils.checkAABBIntersection
      { x := pos.x - epsilon, y := 0, z := pos.z - epsilon }
      { length := dims.length + epsilon * 2, width := dims.width + epsilon * 2, height := 1 }
      { x := item.position.x, y := 0, z := item.position.z }
      { length := item.dimensions.length, width := item.dimensions.width, height := 1 })

/-- The footprint overlap area one support contributes under the box rule. -/
def supportOverlapArea (pos : IVector3) (dims : IDimensions) (support : IPlacedItem) : ℚ :=
  let overlapX := jsMax 0 (jsMin (pos.x + dims.length)
    (support.position.x + support.dimensions.length) - jsMax pos.x support.position.x)
  let overlapZ := jsMax 0 (jsMin (pos.z + dims.width)
    (support.position.z + support.dimensions.width) - jsMax pos.z support.position.z)
  overlapX * overlapZ

/-- Whether one roll support yields a geometrically valid bridge contact for
the candidate roll: matching orientation case, cross-section center distance
within 0.25 of the radius sum. -/
def rollContactValid (pos : IVector3) (dims : IDimensions)
    (orientation : RollOrientation) (support : IPlacedItem) : Bool :=
  let myRadius := (if orientation = RollOrientation.vertical then dims.length else dims.height) / 2
  let myCenter : ℚ × ℚ :=
    match orientation with
    | RollOrientation.vertical => (pos.x + myRadius, pos.z + myRadius)
    | RollOrientation.horizontal =>
        if decide (dims.length > dims.width) then (pos.y + myRadius, pos.z + myRadius)
        else (pos.x + myRadius, pos.y + myRadius)
  let supportRadius :=
    (if support.orientation = some RollOrientation.vertical then support.dimensions.length
     else support.dimensions.height) / 2
  let supportCenter : Option (ℚ × ℚ) :=
    match orientation, support.orientation with
    | RollOrientation.vertical, some RollOrientation.vertical =>
        some (support.position.x + supportRadius, support.position.z + supportRadius)
    | RollOrientation.horizontal, some RollOrientation.horizontal =>
        let myAlignX := decide (dims.length > dims.width)
        let supAlignX := decide (support.dimensions.length > support.dimensions.width)
        if myAlignX = supAlignX then
          if myAlignX then
            some (support.position.y + supportRadius, support.position.z + supportRadius)
          else
            some (support.position.x + supportRadius, support.position.y + supportRadius)
        else none
    | _, _ => none
  match supportCenter with
  | none => false
  | some c =>
      let distSq := (myCenter.1 - c.1) ^ 2 + (myCenter.2 - c.2) ^ 2
      sqrtAbsDiffLt distSq (myRadius + supportRadius) 0.25

/-- hasSufficientSupport: no support means none; any box-like support
switches to the footprint area rule over all supports (ratio above one
half); otherwise at least one valid roll bridge contact is required. -/
def hasSufficientSupport (pos : IVector3) (dims : IDimensions)
    (orientation : RollOrientation) (placedItems : List IPlacedItem) : Bool :=
  let supportingItems := getSupportingItems pos dims placedItems
  if supportingItems.isEmpty then false
  else if supportingItems.any (fun i => i.item.type ≠ CargoType.roll) then
    let supportedArea := supportingItems.foldl
      (fun acc s => acc + supportOverlapArea pos dims s) 0
    decide (supportedArea / (dims.length * dims.width) > 0.5)
  else
    (supportingItems.filter (fun s => s.item.type = CargoType.roll)).any
      (rollContactValid pos dims orientation)

/-- canPlaceAt of RollStrategy: bounds, then shape-aware intersection with
every placed item, floor positions accepted outright, elevated positions
requiring sufficient support, and a vertical roll rejected when any support
is a horizontally oriented roll. The item argument is unused in the source
body and kept for signature fidelity. -/
def canPlaceAt (item : ICargoItem) (pos : IVector3) (orient : OrientationOption)
    (context : IPackingContext) : Bool :=
  let dimensions := orient.dimensions
  let orientationType := orient.orientation
  if !(GeometryUtils.isWithinBounds pos dimensions context.container.dimensions) then false
  else if context.placedItems.any (fun other =>
      GeometryUtils.checkIntersection pos dimensions other.position other.dimensions
        CargoType.roll other.item.type orientationType
        (other.orientation.getD RollOrientation.vertical)) then false
  else if decide (pos.y < 0.01) then true
  else if !(hasSufficientSupport pos dimensions orientationType context.placedItems) then false
  else if orientationType = RollOrientation.vertical then
    !((getSupportingItems pos dimensions context.placedItems).any (fun support =>
        support.item.type = CargoType.roll ∧
        support.orientation = some RollOrientation.horizontal))
  else true

/-- findBestPosition of RollStrategy: resolve effective diameter and length
(roll dimensions, else box-dimension fallback, overridden by pallet
dimensions), reject degenerate sizes, and return the first candidate point
and orientation that validates. -/
def findBestPosition (item : ICargoItem) (context : IPackingContext) :
    Option StrategyResult :=
  let base : ℚ × ℚ :=
    match item.rollDimensions with
    | some rd => (rd.diameter, rd.length)
    | none =>
        match item.dimensions with
        | some d => (jsMin d.length d.width, d.height)
        | none => (0, 0)
  let resolved : ℚ × ℚ :=
    match item.palletDimensions with
    | some pd => (jsMax pd.length pd.width, base.2 + pd.height)
    | none => base
  let rollDiameter := resolved.1
  let rollLength := resolved.2
  if decide (rollDiameter ≤ 0.01) || decide (rollLength ≤ 0.01) then none
  else
    let orientations := getOrientations rollDiameter rollLength item.isPalletized
    let candidatePoints :=
      generateCandidatePoints context.placedItems context.container.dimensions
        rollDiameter rollLength
    if candidatePoints.isEmpty then none
    else
      candidatePoints.findSome? (fun point =>
        orientations.findSome? (fun orient =>
          if canPlaceAt item point.position orient context then
            some { position := point.position
                   rotation := orient.rotation
                   orientation := some orient.orientation
                   dimensions := some orient.dimensions }
          else none))

end RollStrategy

/-! ## PatternGenerator (core/math/PatternGenerator.ts, box and pallet part)

The roll pattern generators of the same file (generateRollPatterns,
generateRollPlacementSlots, calculateHoneycombSlots) are reachable only
from PatternEvaluator.evaluateRollPatterns, which no embedded engine
revision calls: the orchestrator routes roll groups through
calculateCoilLoading instead. They are therefore not embedded. -/

namespace PatternGenerator

/-- The itemOrientation tag of IRowPattern. -/
inductive ItemOrientation where
  | alongLength
  | alongWidth
deriving DecidableEq, Repr

/-- IRowPattern from PatternGenerator. -/
structure IRowPattern where
  rowWidth : ℚ
  itemOrientation : ItemOrientation
  itemsPerRow : ℤ
deriving DecidableEq, Repr

/-- ILayoutPattern from PatternGenerator (patternType is the optional label
the box generator sets). -/
structure ILayoutPattern where
  rows : List IRowPattern
  totalItems : ℤ
  utilizationScore : ℚ
  orientation : IDimensions
  patternType : Option String
deriving DecidableEq, Repr

/-- IPlacementSlot from PatternGenerator. -/
structure IPlacementSlot where
  position : IVector3
  dimensions : IDimensions
  rotation : ℚ
  orientation : Option RollOrientation
deriving DecidableEq, Repr

/-- The pattern ordering used by both generators: more total items first,
utilization score breaking ties, stable otherwise. -/
def patternBefore (a b : ILayoutPattern) : Bool :=
  if a.totalItems ≠ b.totalItems then decide (b.totalItems < a.totalItems)
  else decide (b.utilizationScore < a.utilizationScore)

/-- getAllOrientations: the six axis permutations, deduplicated on the
resulting dimension triple, first occurrence kept. -/
def getAllOrientations (dims : IDimensions) : List IDimensions :=
  let all := [
    IDimensions.mk dims.length dims.width dims.height,
    IDimensions.mk dims.length dims.height dims.width,
    IDimensions.mk dims.width dims.length dims.height,
    IDimensions.mk dims.width dims.height dims.length,
    IDimensions.mk dims.height dims.length dims.width,
    IDimensions.mk dims.height dims.width dims.length]
  (all.foldl (fun acc o => if acc.contains o then acc else acc ++ [o]) [])

/-- The inclusive integer range 0..bound of a JavaScript for loop, empty
when the bound is negative. -/
def inclusiveRange (bound : ℤ) : List ℤ :=
  (List.range (bound + 1).toNat).map (fun i => (i : ℤ))

/-- generatePalletPatterns: enumerate row splits of the container width
between the two footprint orientations (at most five rows each), derive the
item capacity, and keep the fifteen best patterns. The itemCount argument
is unused in the source and kept for signature fidelity. -/
def generatePalletPatterns (itemDims : IDimensions) (palletDims : Option IDimensions)
    (containerDims : IDimensions) (itemCount : ℕ) : List ILayoutPattern :=
  let baseDims :=
    match palletDims with
    | some pd => IDimensions.mk pd.length pd.width (itemDims.height + pd.height)
    | none => itemDims
  let containerLength := containerDims.length
  let containerWidth := containerDims.width
  let lengthOriented := (baseDims.length, baseDims.width)
  let widthOriented := (baseDims.width, baseDims.length)
  let maxRowsLength := (containerWidth / lengthOriented.2).floor
  let maxRowsWidth := (containerWidth / widthOriented.2).floor
  let patterns :=
    (inclusiveRange (min maxRowsLength 5)).flatMap (fun (rowsL : ℤ) =>
      (inclusiveRange (min maxRowsWidth 5)).filterMap (fun (rowsW : ℤ) =>
        let usedWidth := (rowsL : ℚ) * lengthOriented.2 + (rowsW : ℚ) * widthOriented.2
        if decide (usedWidth > containerWidth + 0.1) then none
        else if rowsL = 0 ∧ rowsW = 0 then none
        else
          let itemsPerRowL := (containerWidth / lengthOriented.2).floor
          let itemsPerRowW := (containerWidth / widthOriented.2).floor
          let depthPositions :=
            (containerLength / jsMax lengthOriented.1 widthOriented.1).floor
          let totalItems := (rowsL * itemsPerRowL + rowsW * itemsPerRowW) * depthPositions
          if totalItems = 0 then none
          else
            let rows :=
              (List.range rowsL.toNat).map (fun _ =>
                IRowPattern.mk lengthOriented.1 ItemOrientation.alongLength itemsPerRowL) ++
              (List.range rowsW.toNat).map (fun _ =>
                IRowPattern.mk widthOriented.1 ItemOrientation.alongWidth itemsPerRowW)
            some { rows := rows
                   totalItems := totalItems
                   utilizationScore := usedWidth / containerWidth * 100
                   orientation := baseDims
                   patternType := none }))
  (sortBy patternBefore patterns).take 15

/-- One orientation's contribution to generateBoxPatterns. -/
def boxPatternsForOrientation (containerDims : IDimensions) (orientation : IDimensions) :
    List ILayoutPattern :=
  let lengthOriented := (orientation.length, orientation.width)
  let widthOriented := (orientation.width, orientation.length)
  let maxLengthRows := (containerDims.width / lengthOriented.2).floor
  let maxWidthRows := (containerDims.width / widthOriented.2).floor
  let extraConfigs :=
    if decide (maxLengthRows > 1) ∧ decide (maxWidthRows > 0) then
      ((List.range (min maxLengthRows 3).toNat).map (fun i => (i : ℤ) + 1)).flatMap (fun (lr : ℤ) =>
        (inclusiveRange (min maxWidthRows 3)).filterMap (fun (wr : ℤ) =>
          if lr = 1 ∧ wr = 0 then none
          else if lr = 0 ∧ wr = 1 then none
          else
            let usedWidth := (lr : ℚ) * lengthOriented.2 + (wr : ℚ) * widthOriented.2
            if decide (usedWidth ≤ containerDims.width + 0.01) then some (lr, wr) else none))
    else []
  let configs := [((1 : ℤ), (0 : ℤ)), (0, 1)] ++ extraConfigs
  configs.filterMap (fun config =>
    let itemsPerRowL := (containerDims.width / lengthOriented.2).floor
    let itemsPerRowW := (containerDims.width / widthOriented.2).floor
    let rows :=
      (List.range config.1.toNat).map (fun _ =>
        IRowPattern.mk lengthOriented.1 ItemOrientation.alongLength itemsPerRowL) ++
      (List.range config.2.toNat).map (fun _ =>
        IRowPattern.mk widthOriented.1 ItemOrientation.alongWidth itemsPerRowW)
    if rows.isEmpty then none
    else
      let itemsInLayer := config.1 * itemsPerRowL + config.2 * itemsPerRowW
      if itemsInLayer = 0 then none
      else
        let layers := (containerDims.height / orientation.height).floor
        let depthPositions := (containerDims.length / orientation.length).floor
        let totalItems := itemsInLayer * layers * depthPositions
        if totalItems = 0 then none
        else
          let usedVolume :=
            (totalItems : ℚ) * (orientation.length * orientation.width * orientation.height)
          let containerVolume :=
            containerDims.length * containerDims.width * containerDims.height
          some { rows := rows
                 totalItems := totalItems
                 utilizationScore := usedVolume / containerVolume * 100
                 orientation := orientation
                 patternType := some "box" })

/-- generateBoxPatterns: all six orientations, row-split configurations,
ten best patterns kept. The itemCount argument is unused in the source. -/
def generateBoxPatterns (itemDims : IDimensions) (palletDims : Option IDimensions)
    (containerDims : IDimensions) (itemCount : ℕ) : List ILayoutPattern :=
  let baseDims :=
    match palletDims with
    | some pd => IDimensions.mk pd.length pd.width (itemDims.height + pd.height)
    | none => itemDims
  let patterns :=
    (getAllOrientations baseDims).flatMap (boxPatternsForOrientation containerDims)
  (sortBy patternBefore patterns).take 10

/-- The innermost width loop of generatePlacementSlots: z positions at
multiples of the item width, stopping at the first position that overflows
the container width by more than 0.01. -/
def slotZs (itemWidth containerWidth : ℚ) : ℕ → ℕ → List ℚ
  | 0, _ => []
  | n + 1, widthPos =>
      let z := (widthPos : ℚ) * itemWidth
      if decide (z + itemWidth > containerWidth + 0.01) then []
      else z :: slotZs itemWidth containerWidth n (widthPos + 1)

/-- The layer loop of generatePlacementSlots: y positions at multiples of
the base height, stopping at the first overflowing layer. -/
def slotYs (baseHeight containerHeight : ℚ) : ℕ → ℕ → List ℚ
  | 0, _ => []
  | n + 1, layer =>
      let y := (layer : ℚ) * baseHeight
      if decide (y + baseHeight > containerHeight + 0.01) then []
      else y :: slotYs baseHeight containerHeight n (layer + 1)

/-- The depth loop of generatePlacementSlots: x positions at multiples of
the depth increment, stopping at the first overflowing depth position. -/
def slotXs (depthIncrement containerLength : ℚ) : ℕ → ℕ → List ℚ
  | 0, _ => []
  | n + 1, depthPos =>
      let x := (depthPos : ℚ) * depthIncrement
      if decide (x + depthIncrement > containerLength + 0.01) then []
      else x :: slotXs depthIncrement containerLength n (depthPos + 1)

/-- generatePlacementSlots: materialize the winning pattern as concrete
slots, one layer only for palletized items, iterating depth, then layer,
then width, with the first row of the pattern fixing the orientation. -/
def generatePlacementSlots (pattern : ILayoutPattern) (itemDims : IDimensions)
    (palletDims : Option IDimensions) (containerDims : IDimensions)
    (isPalletized : Bool) : List IPlacementSlot :=
  let baseDims := pattern.orientation
  let maxLayers : ℤ := if isPalletized then 1 else (containerDims.height / baseDims.height).floor
  match pattern.rows with
  | [] => []
  | firstRow :: _ =>
      let depthIncrement :=
        match firstRow.itemOrientation with
        | ItemOrientation.alongLength => baseDims.length
        | ItemOrientation.alongWidth => baseDims.width
      let maxDepthPositions := (containerDims.length / depthIncrement).floor
      let itemWidth :=
        match firstRow.itemOrientation with
        | ItemOrientation.alongLength => baseDims.width
        | ItemOrientation.alongWidth => baseDims.length
      let itemLength :=
        match firstRow.itemOrientation with
        | ItemOrientation.alongLength => baseDims.length
        | ItemOrientation.alongWidth => baseDims.width
      let itemRotation : ℚ :=
        match firstRow.itemOrientation with
        | ItemOrientation.alongLength => 0
        | ItemOrientation.alongWidth => 90
      let widthPositions := (containerDims.width / itemWidth).floor
      (slotXs depthIncrement containerDims.length maxDepthPositions.toNat 0).flatMap (fun x =>
        (slotYs baseDims.height containerDims.height maxLayers.toNat 0).flatMap (fun y =>
          (slotZs itemWidth containerDims.width widthPositions.toNat 0).map (fun z =>
            { position := IVector3.mk x y z
              dimensions := IDimensions.mk itemLength itemWidth baseDims.height
              rotation := itemRotation
              orientation := none })))

end PatternGenerator

/-! ## PatternEvaluator (core/math, revision with the roll evaluator)

The wall-clock budget of the source (performance.now polled at the top of
the candidate loop) is modelled by an oracle telling for each iteration
index whether the budget has expired. evaluateRollPatterns is unreachable
from the embedded engine revision and is not embedded. -/

namespace PatternEvaluator

/-- IPatternEvaluation from PatternEvaluator. -/
structure IPatternEvaluation where
  pattern : PatternGenerator.ILayoutPattern
  slots : List PatternGenerator.IPlacementSlot
  itemsFitted : ℕ
  score : ℚ
deriving DecidableEq, Repr

/-- The score combining items fitted, utilization and valid slot count. -/
def calculateScore (itemsFitted : ℕ) (utilizationScore : ℚ) (validSlotsCount : ℕ) : ℚ :=
  (itemsFitted : ℚ) * 1000000 + utilizationScore * 100 + (validSlotsCount : ℚ)

/-- Evaluate one candidate pattern: derive its slots, count the items it
could fit, keep the slots inside the container, and score. -/
def evaluateOne (firstItem : ICargoItem) (itemDims : IDimensions)
    (containerDims : IDimensions) (itemsLen : ℕ)
    (pattern : PatternGenerator.ILayoutPattern) : IPatternEvaluation :=
  let slots := PatternGenerator.generatePlacementSlots pattern itemDims
    firstItem.palletDimensions containerDims (firstItem.isPalletized.getD false)
  let itemsFitted := min slots.length itemsLen
  let validSlots := slots.filter (fun slot =>
    GeometryUtils.isWithinBounds slot.position slot.dimensions containerDims)
  { pattern := pattern
    slots := validSlots
    itemsFitted := itemsFitted
    score := calculateScore itemsFitted pattern.utilizationScore validSlots.length }

/-- The evaluation loop: stop when the budget oracle reports expiry at the
current iteration index, otherwise keep the strictly best score. -/
def evalLoop (expired : ℕ → Bool) (mk : PatternGenerator.ILayoutPattern → IPatternEvaluation) :
    ℕ → List PatternGenerator.ILayoutPattern → Option IPatternEvaluation →
    Option IPatternEvaluation
  | _, [], best => best
  | i, p :: ps, best =>
      if expired i then best
      else
        let e := mk p
        let best2 :=
          match best with
          | none => some e
          | some b => if decide (e.score > b.score) then some e else some b
        evalLoop expired mk (i + 1) ps best2

/-- evaluatePalletPatterns under the budget oracle. -/
def evaluatePalletPatterns (expired : ℕ → Bool) (items : List ICargoItem)
    (container : IContainer) : Option IPatternEvaluation :=
  match items with
  | [] => none
  | firstItem :: _ =>
      match firstItem.dimensions with
      | none => none
      | some itemDims =>
          let patterns := PatternGenerator.generatePalletPatterns itemDims
            firstItem.palletDimensions container.dimensions items.length
          if patterns.isEmpty then none
          else evalLoop expired
            (evaluateOne firstItem itemDims container.dimensions items.length) 0 patterns none

/-- evaluateBoxPatterns under the budget oracle. -/
def evaluateBoxPatterns (expired : ℕ → Bool) (items : List ICargoItem)
    (container : IContainer) : Option IPatternEvaluation :=
  match items with
  | [] => none
  | firstItem :: _ =>
      match firstItem.dimensions with
      | none => none
      | some itemDims =>
          let patterns := PatternGenerator.generateBoxPatterns itemDims
            firstItem.palletDimensions container.dimensions items.length
          if patterns.isEmpty then none
          else evalLoop expired
            (evaluateOne firstItem itemDims container.dimensions items.length) 0 patterns none

end PatternEvaluator

/-! ## PrecisePlacer (core/math/PrecisePlacer.ts) -/

namespace PrecisePlacer

/-- validateSlot: container bounds, then pairwise intersection against the
given placed items. The source calls checkIntersection without type or
orientation arguments, so the box defaults apply. -/
def validateSlot (slot : PatternGenerator.IPlacementSlot) (container : IContainer)
    (placedItems : List IPlacedItem) : Bool :=
  if !(GeometryUtils.isWithinBounds slot.position slot.dimensions container.dimensions) then
    false
  else
    !(placedItems.any (fun other =>
      GeometryUtils.checkIntersection slot.position slot.dimensions
        other.position other.dimensions CargoType.box CargoType.box
        RollOrientation.vertical RollOrientation.vertical))

/-- The placed item record placeItemsFromSlots creates for one slot. -/
def placedOfSlot (item : ICargoItem) (slot : PatternGenerator.IPlacementSlot) : IPlacedItem :=
  { itemId := item.id
    item := item
    position := slot.position
    rotation := JsRotation.num slot.rotation
    dimensions := slot.dimensions
    orientation := some RollOrientation.horizontal }

/-- The item/slot lock-step walk of placeItemsFromSlots: a palletized item
refuses an elevated slot, an invalid slot sends the item to remaining
without consuming the slot, a valid slot is consumed and its placement is
seen by the validations that follow. -/
def placeLoop (container : IContainer) (existing : List IPlacedItem) :
    List ICargoItem → List PatternGenerator.IPlacementSlot →
    List IPlacedItem → List ICargoItem → List IPlacedItem × List ICargoItem
  | [], _, placedAcc, remAcc => (placedAcc, remAcc)
  | item :: rest, [], placedAcc, remAcc =>
      placeLoop container existing rest [] placedAcc (remAcc ++ [item])
  | item :: rest, slot :: slotRest, placedAcc, remAcc =>
      if item.isPalletized.getD false ∧ decide (slot.position.y > 0.01) then
        placeLoop container existing rest (slot :: slotRest) placedAcc (remAcc ++ [item])
      else if validateSlot slot container (existing ++ placedAcc) then
        placeLoop container existing rest slotRest
          (placedAcc ++ [placedOfSlot item slot]) remAcc
      else
        placeLoop container existing rest (slot :: slotRest) placedAcc (remAcc ++ [item])

/-- placeItemsFromSlots of PrecisePlacer. -/
def placeItemsFromSlots (items : List ICargoItem)
    (slots : List PatternGenerator.IPlacementSlot) (container : IContainer)
    (placedItems : List IPlacedItem) : List IPlacedItem × List ICargoItem :=
  placeLoop container placedItems items slots [] []

end PrecisePlacer

/-! ## BoxStrategy (core/strategies/BoxStrategy.ts, corner-point revision) -/

namespace BoxStrategy

/-- A corner point with its ordering score. -/
structure CornerPoint where
  position : IVector3
  score : ℚ
deriving DecidableEq, Repr

/-- isPointInsidePlacedItem: strictly inside some placed bounding box. -/
def isPointInsidePlacedItem (point : IVector3) (placedItems : List IPlacedItem) : Bool :=
  placedItems.any (fun item =>
    decide (point.x > item.position.x) &&
    decide (point.x < item.position.x + item.dimensions.length) &&
    decide (point.y > item.position.y) &&
    decide (point.y < item.position.y + item.dimensions.height) &&
    decide (point.z > item.position.z) &&
    decide (point.z < item.position.z + item.dimensions.width))

/-- generateCornerPoints: the origin plus the right, back and top corners of
every placed item that lie inside the container, deduplicated in insertion
order, filtered against interior points, scored with the y coordinate
dominating and sorted ascending. -/
def generateCornerPoints (placedItems : List IPlacedItem)
    (containerDims : IDimensions) : List CornerPoint :=
  match placedItems with
  | [] => [{ position := IVector3.mk 0 0 0, score := 0 }]
  | _ =>
      let candidates := placedItems.flatMap (fun item =>
        let pos := item.position
        let dims := item.dimensions
        [IVector3.mk (pos.x + dims.length) pos.y pos.z,
         IVector3.mk pos.x pos.y (pos.z + dims.width),
         IVector3.mk pos.x (pos.y + dims.height) pos.z])
      let pointList := candidates.foldl (fun acc point =>
        if decide (point.x ≤ containerDims.length) &&
           decide (point.y ≤ containerDims.height) &&
           decide (point.z ≤ containerDims.width) then
          if acc.contains point then acc else acc ++ [point]
        else acc) [IVector3.mk 0 0 0]
      let corners := pointList.filterMap (fun position =>
        if isPointInsidePlacedItem position placedItems then none
        else some { position := position
                    score := position.y * 1000000 + position.x * 1000 + position.z })
      sortBy (fun a b => decide (a.score < b.score)) corners

/-- An orientation option of BoxStrategy: rotation and resolved dimensions. -/
structure BoxOrientation where
  rotation : ℚ
  dimensions : IDimensions
deriving DecidableEq, Repr

/-- getOrientations: for a palletized item the two pallet-footprint
rotations, deduplicated; otherwise the six axis permutations, deduplicated
and sorted by ascending height then descending footprint area. -/
def getOrientations (dims : IDimensions) (palletDims : Option IDimensions) :
    List BoxOrientation :=
  match palletDims with
  | some pd =>
      let totalHeight := dims.height + pd.height
      let all := [
        BoxOrientation.mk 0 (IDimensions.mk pd.length pd.width totalHeight),
        BoxOrientation.mk 90 (IDimensions.mk pd.width pd.length totalHeight)]
      all.foldl (fun acc o =>
        if acc.any (fun p => p.dimensions = o.dimensions) then acc else acc ++ [o]) []
  | none =>
      let all := [
        BoxOrientation.mk 0 (IDimensions.mk dims.length dims.width dims.height),
        BoxOrientation.mk 0 (IDimensions.mk dims.length dims.height dims.width),
        BoxOrientation.mk 0 (IDimensions.mk dims.width dims.length dims.height),
        BoxOrientation.mk 0 (IDimensions.mk dims.width dims.height dims.length),
        BoxOrientation.mk 0 (IDimensions.mk dims.height dims.length dims.width),
        BoxOrientation.mk 0 (IDimensions.mk dims.height dims.width dims.length)]
      let unique := all.foldl (fun acc o =>
        if acc.any (fun p => p.dimensions = o.dimensions) then acc else acc ++ [o]) []
      sortBy (fun a b =>
        if a.dimensions.height ≠ b.dimensions.height then
          decide (a.dimensions.height < b.dimensions.height)
        else
          decide (b.dimensions.length * b.dimensions.width <
            a.dimensions.length * a.dimensions.width)) unique

/-- hasSupport of BoxStrategy: the total top-face overlap area of placed
items whose top is within 0.01 of the candidate bottom must cover at least
three quarters of the candidate footprint. -/
def hasSupport (pos : IVector3) (dims : IDimensions)
    (placedItems : List IPlacedItem) : Bool :=
  let supportThreshold : ℚ := 0.75
  let boxBottomArea := dims.length * dims.width
  let epsilon : ℚ := 0.01
  let supportedArea := placedItems.foldl (fun acc item =>
    let itemTop := item.position.y + item.dimensions.height
    if decide (jsAbs (itemTop - pos.y) < epsilon) then
      let overlapX := jsMax 0 (jsMin (pos.x + dims.length)
        (item.position.x + item.dimensions.length) - jsMax pos.x item.position.x)
      let overlapZ := jsMax 0 (jsMin (pos.z + dims.width)
        (item.position.z + item.dimensions.width) - jsMax pos.z item.position.z)
      acc + overlapX * overlapZ
    else acc) 0
  decide (supportedArea / boxBottomArea ≥ supportThreshold)

/-- canPlaceAt of BoxStrategy: container bounds, the palletized floor-only
rule, pairwise intersection with the box defaults, and the support rule for
elevated positions. -/
def canPlaceAt (item : ICargoItem) (position : IVector3) (dimensions : IDimensions)
    (context : IPackingContext) : Bool :=
  if !(GeometryUtils.isWithinBounds position dimensions context.container.dimensions) then
    false
  else if item.isPalletized.getD false ∧ decide (position.y > 0.01) then false
  else if context.placedItems.any (fun other =>
      GeometryUtils.checkIntersection position dimensions other.position other.dimensions
        CargoType.box CargoType.box RollOrientation.vertical RollOrientation.vertical) then
    false
  else if decide (position.y > 0.01) &&
      !(hasSupport position dimensions context.placedItems) then false
  else true

/-- tryPatternBasedPlacement: the best box pattern's slots, first slot that
validates. -/
def tryPatternBasedPlacement (item : ICargoItem) (itemDims : IDimensions)
    (context : IPackingContext) : Option StrategyResult :=
  let patterns := PatternGenerator.generateBoxPatterns itemDims item.palletDimensions
    context.container.dimensions 1
  match patterns with
  | [] => none
  | bestPattern :: _ =>
      let slots := PatternGenerator.generatePlacementSlots bestPattern itemDims
        item.palletDimensions context.container.dimensions (item.isPalletized.getD false)
      slots.findSome? (fun slot =>
        if canPlaceAt item slot.position slot.dimensions context then
          some { position := slot.position
                 rotation := slot.rotation
                 orientation := none
                 dimensions := some slot.dimensions }
        else none)

/-- findBestPosition of BoxStrategy: pattern-based placement for an empty
container or a palletized item, then corner points crossed with
orientations, first success wins. -/
def findBestPosition (item : ICargoItem) (context : IPackingContext) :
    Option StrategyResult :=
  match item.dimensions with
  | none => none
  | some itemDims =>
      let patternResult :=
        if context.placedItems.isEmpty || item.isPalletized.getD false then
          tryPatternBasedPlacement item itemDims context
        else none
      match patternResult with
      | some r => some r
      | none =>
          let cornerPoints := generateCornerPoints context.placedItems
            context.container.dimensions
          let orientations := getOrientations itemDims item.palletDimensions
          cornerPoints.findSome? (fun corner =>
            orientations.findSome? (fun orientation =>
              if canPlaceAt item corner.position orientation.dimensions context then
                some { position := corner.position
                       rotation := orientation.rotation
                       orientation := none
                       dimensions := some orientation.dimensions }
              else none))

end BoxStrategy

/-! ## PalletStrategy (core/strategies/PalletStrategy.ts) -/

namespace PalletStrategy

/-- canPlaceAt of PalletStrategy: bounds and pairwise intersection with the
box defaults. -/
def canPlaceAt (position : IVector3) (dimensions : IDimensions)
    (context : IPackingContext) : Bool :=
  if !(GeometryUtils.isWithinBounds position dimensions context.container.dimensions) then
    false
  else
    !(context.placedItems.any (fun other =>
      GeometryUtils.checkIntersection position dimensions other.position other.dimensions
        CargoType.box CargoType.box RollOrientation.vertical RollOrientation.vertical))

/-- The scan positions of one axis: multiples of the 0.5 step up to the
inclusive bound (the bound is checked nonnegative by the caller). -/
def scanPositions (maxCoord : ℚ) : List ℚ :=
  (List.range ((maxCoord / 0.5).floor + 1).toNat).map (fun i => (i : ℚ) * 0.5)

/-- findBestPosition of PalletStrategy: both rotations, scanning the floor
at half-unit steps, first position that validates. -/
def findBestPosition (item : ICargoItem) (context : IPackingContext) :
    Option StrategyResult :=
  match item.dimensions with
  | none => none
  | some itemDims =>
      let orientations := [
        BoxStrategy.BoxOrientation.mk 0 itemDims,
        BoxStrategy.BoxOrientation.mk 90
          (IDimensions.mk itemDims.width itemDims.length itemDims.height)]
      orientations.findSome? (fun orientation =>
        let maxX := context.container.dimensions.length - orientation.dimensions.length
        let maxZ := context.container.dimensions.width - orientation.dimensions.width
        if decide (maxX < 0) || decide (maxZ < 0) then none
        else
          (scanPositions maxX).findSome? (fun x =>
            (scanPositions maxZ).findSome? (fun z =>
              let candidatePos := IVector3.mk x 0 z
              if canPlaceAt candidatePos orientation.dimensions context then
                some { position := candidatePos
                       rotation := orientation.rotation
                       orientation := none
                       dimensions := some orientation.dimensions }
              else none)))

end PalletStrategy

/-! ## calculateCoilLoading (utils/packingAlgorithm.ts)

The source uses an unbounded while loop over stacking rows with no
guarantee of progress: a row that places nothing and never trips the
ceiling check loops forever. The embedding threads explicit fuel (an upper
bound on the number of outer iterations the caller is willing to model);
a result of none for every fuel is exactly a diverging source loop. -/

namespace CoilLoading

/-- The container dimensions record calculateCoilLoading receives. -/
structure ContainerDims where
  width : ℚ
  height : ℚ
  length : ℚ
deriving DecidableEq, Repr

/-- The coil description calculateCoilLoading receives. -/
structure ItemDims where
  id : String
  diameter : ℚ
  length : ℚ
  quantity : ℕ
deriving DecidableEq, Repr

/-- The placements calculateCoilLoading emits: center-based positions and
an Euler rotation triple. -/
structure CoilPlaced where
  id : String
  position : IVector3
  rotation : JsRotation
  isPlaced : Bool
deriving DecidableEq, Repr

/-- One horizontal row of the coil loop: place up to the row limit, break
when the quantity is reached or the next center would cross the width. -/
def coilRow (item : ItemDims) (width radius startX yPos zPos : ℚ) :
    ℕ → ℕ → ℕ → List CoilPlaced → ℕ × List CoilPlaced
  | 0, _, count, acc => (count, acc)
  | n + 1, i, count, acc =>
      if count ≥ item.quantity then (count, acc)
      else
        let xPos := startX + (i : ℚ) * item.diameter
        if decide (xPos + radius > width) then (count, acc)
        else
          coilRow item width radius startX yPos zPos n (i + 1) (count + 1)
            (acc ++ [{ id := item.id ++ "-" ++ Nat.repr count
                       position := IVector3.mk xPos yPos zPos
                       rotation := JsRotation.vec 0 0 (jsPI / 2)
                       isPlaced := true }])

/-- The outer row loop of calculateCoilLoading under fuel. -/
def coilLoop (container : ContainerDims) (item : ItemDims)
    (radius verticalStep zPosition : ℚ) (itemsPerNormalRow itemsPerStaggeredRow : ℤ) :
    ℕ → ℕ → ℕ → List CoilPlaced → Option (ℕ × List CoilPlaced)
  | 0, _, _, _ => none
  | fuel + 1, count, currentRow, acc =>
      if count < item.quantity then
        let yPos := radius + (currentRow : ℚ) * verticalStep
        if decide (yPos + radius > container.height) then some (count, acc)
        else
          let isStaggered := currentRow % 2 ≠ 0
          let limitInThisRow := if isStaggered then itemsPerStaggeredRow else itemsPerNormalRow
          let startX := if isStaggered then radius + item.diameter / 2 else radius
          let stepped := coilRow item container.width radius startX yPos zPosition
            limitInThisRow.toNat 0 count acc
          coilLoop container item radius verticalStep zPosition
            itemsPerNormalRow itemsPerStaggeredRow fuel stepped.1 (currentRow + 1) stepped.2
      else some (count, acc)

/-- calculateCoilLoading: honeycomb stacking of identical coils, centers on
a hexagonal lattice, all coils at one fixed depth. Returns the placements
and the unplaced count, or none when the fuel bound is not enough to
exhaust the source loop. -/
def calculateCoilLoading (fuel : ℕ) (container : ContainerDims) (item : ItemDims) :
    Option (List CoilPlaced × ℕ) :=
  let radius := item.diameter / 2
  let itemsPerNormalRow := (container.width / item.diameter).floor
  let itemsPerStaggeredRow := itemsPerNormalRow - 1
  let verticalStep := item.diameter * jsSin60
  let zPosition := item.length / 2
  (coilLoop container item radius verticalStep zPosition itemsPerNormalRow
    itemsPerStaggeredRow fuel 0 0 []).map (fun r => (r.2, item.quantity - r.1))

end CoilLoading

/-! ## PackingEngine (core/engine, revision routing rolls to coil loading) -/

namespace PackingEngine

/-- IPackingConfig of the engine. -/
structure IPackingConfig where
  enablePatternPacking : Bool
  maxPatternGenerationTime : ℚ
  minItemsForPatterns : ℕ
deriving DecidableEq, Repr

/-- The constructor defaults of the engine configuration. -/
def defaultConfig : IPackingConfig :=
  { enablePatternPacking := true
    maxPatternGenerationTime := 3000
    minItemsForPatterns := 5 }

/-- ensurePalletDimensions: a palletized item without pallet dimensions
receives synthesized ones from its box or roll dimensions. -/
def ensurePalletDimensions (item : ICargoItem) : ICargoItem :=
  if item.isPalletized.getD false ∧ item.palletDimensions = none then
    match item.dimensions with
    | some d =>
        let pd := IDimensions.mk (d.length + 0.1) (d.width + 0.1) 0.15
        { item with palletDimensions := some pd }
    | none =>
        match item.rollDimensions with
        | some rd =>
            let pd := IDimensions.mk (rd.diameter + 0.1) (rd.diameter + 0.1) 0.15
            { item with palletDimensions := some pd }
        | none => item
  else item

/-- Quantity expansion: each catalog entry becomes quantity unit items with
suffixed unique identifiers and quantity one. -/
def expandItems (items : List ICargoItem) : List ICargoItem :=
  items.flatMap (fun item =>
    (List.range item.quantity).map (fun i =>
      let processed := ensurePalletDimensions item
      { processed with id := item.id ++ "-" ++ Nat.repr i, quantity := 1 }))

/-- The sorting volume: cylinder volume for roll dimensions, box volume for
generic dimensions, zero otherwise. -/
def getVol (i : ICargoItem) : ℚ :=
  match i.rollDimensions with
  | some rd => jsPI * (rd.diameter / 2) * (rd.diameter / 2) * rd.length
  | none =>
      match i.dimensions with
      | some d => d.length * d.width * d.height
      | none => 0

/-- The grouping key of getItemKey: the source builds a string from these
fields with separators, which is injective on the field tuple, so the
embedding uses the tuple itself. -/
structure GroupKey where
  type : CargoType
  dimsLength : Option ℚ
  dimsWidth : Option ℚ
  dimsHeight : Option ℚ
  palletLength : Option ℚ
  palletWidth : Option ℚ
  palletHeight : Option ℚ
  rollDiameter : Option ℚ
  rollLength : Option ℚ
  isPalletized : Option Bool
deriving DecidableEq, Repr

/-- getItemKey of the engine. -/
def getItemKey (item : ICargoItem) : GroupKey :=
  { type := item.type
    dimsLength := item.dimensions.map IDimensions.length
    dimsWidth := item.dimensions.map IDimensions.width
    dimsHeight := item.dimensions.map IDimensions.height
    palletLength := item.palletDimensions.map IDimensions.length
    palletWidth := item.palletDimensions.map IDimensions.width
    palletHeight := item.palletDimensions.map IDimensions.height
    rollDiameter := item.rollDimensions.map IRollDimensions.diameter
    rollLength := item.rollDimensions.map IRollDimensions.length
    isPalletized := item.isPalletized }

/-- Append an item to its key's bucket, keeping first-seen key order and
first-seen item order inside a bucket, as the source Map does. -/
def addToGroups (gs : List (GroupKey × List ICargoItem)) (k : GroupKey)
    (it : ICargoItem) : List (GroupKey × List ICargoItem) :=
  match gs with
  | [] => [(k, [it])]
  | (k1, l) :: rest =>
      if k1 = k then (k1, l ++ [it]) :: rest
      else (k1, l) :: addToGroups rest k it

/-- groupIdenticalItems of the engine. -/
def groupIdenticalItems (items : List ICargoItem) : List (GroupKey × List ICargoItem) :=
  items.foldl (fun gs it => addToGroups gs (getItemKey it) it) []

/-- The pattern-packing gate of the run loop: pattern packing enabled, the
group shape one of pallet, box or roll, and the group palletized or at
least the configured minimum size. -/
def shouldUsePatternPacking (config : IPackingConfig) (items : List ICargoItem) : Bool :=
  match items with
  | [] => false
  | first :: _ =>
      config.enablePatternPacking &&
      decide (first.type = CargoType.pallet ∨ first.type = CargoType.box ∨
        first.type = CargoType.roll) &&
      (first.isPalletized.getD false || decide (items.length ≥ config.minItemsForPatterns))

/-- The mapping step of the roll pattern path: each coil placement is paired
with a group item in order (excess placements beyond the group are ignored,
exactly as the index guard of the source forEach does), with the group roll
dimensions as bounding box and orientation horizontal; the unpaired tail of
the group is the remaining list. -/
def mapCoilResult (rd : IRollDimensions) (items : List ICargoItem)
    (algoResult : List CoilLoading.CoilPlaced × ℕ) :
    List IPlacedItem × List ICargoItem :=
  let placed := (algoResult.1.zip items).map (fun pi =>
    { itemId := pi.2.id
      item := pi.2
      position := pi.1.position
      rotation := pi.1.rotation
      dimensions := IDimensions.mk rd.diameter rd.diameter rd.length
      orientation := some RollOrientation.horizontal })
  (placed, items.drop placed.length)

/-- tryPatternPackingForGroup: roll groups run the coil algorithm and map
its center placements one-to-one onto the group items (bounding dimensions
diameter by diameter by length, orientation horizontal); box and pallet
groups run the pattern evaluators and the slot placer. A none result
models divergence of the coil loop beyond the fuel bound. -/
def tryPatternPackingForGroup (expired : ℕ → Bool) (fuel : ℕ)
    (items : List ICargoItem) (container : IContainer)
    (existingPlaced : List IPlacedItem) :
    Option (List IPlacedItem × List ICargoItem) :=
  match items with
  | [] => some ([], [])
  | firstItem :: _ =>
      if firstItem.type = CargoType.roll then
        match firstItem.rollDimensions with
        | none => some ([], items)
        | some rd =>
            (CoilLoading.calculateCoilLoading fuel
              { width := container.dimensions.width
                height := container.dimensions.height
                length := container.dimensions.length }
              { id := firstItem.id
                diameter := rd.diameter
                length := rd.length
                quantity := items.length }).map (mapCoilResult rd items)
      else
        let evaluation :=
          if firstItem.type = CargoType.pallet ∨
             (firstItem.type = CargoType.box ∧ firstItem.isPalletized.getD false = true) then
            PatternEvaluator.evaluatePalletPatterns expired items container
          else if firstItem.type = CargoType.box then
            PatternEvaluator.evaluateBoxPatterns expired items container
          else none
        match evaluation with
        | none => some ([], items)
        | some ev =>
            if ev.slots.isEmpty then some ([], items)
            else some (PrecisePlacer.placeItemsFromSlots items ev.slots container existingPlaced)

/-- Strategy dispatch of getStrategy followed by findBestPosition. -/
def findBestPositionFor (t : CargoType) (item : ICargoItem)
    (context : IPackingContext) : Option StrategyResult :=
  match t with
  | CargoType.box => BoxStrategy.findBestPosition item context
  | CargoType.roll => RollStrategy.findBestPosition item context
  | CargoType.pallet => PalletStrategy.findBestPosition item context

/-- One per-unit placement step of the run loop: the matching strategy sees
the live placed list, a successful result is appended to it, anything else
joins the unplaced list. -/
def perUnitStep (container : IContainer)
    (acc : List IPlacedItem × List ICargoItem) (item : ICargoItem) :
    List IPlacedItem × List ICargoItem :=
  match findBestPositionFor item.type item { container := container, placedItems := acc.1 } with
  | some result =>
      match result.dimensions with
      | some d =>
          (acc.1 ++ [{ itemId := item.id
                       item := item
                       position := result.position
                       rotation := JsRotation.num result.rotation
                       dimensions := d
                       orientation := some (result.orientation.getD RollOrientation.horizontal) }],
           acc.2)
      | none => (acc.1, acc.2 ++ [item])
  | none => (acc.1, acc.2 ++ [item])

/-- One group of the run loop: the pattern path when the gate opens and the
pattern result placed anything, the per-unit loop otherwise. -/
def processGroup (config : IPackingConfig) (fuel : ℕ) (expired : ℕ → Bool)
    (container : IContainer) (acc : List IPlacedItem × List ICargoItem)
    (gitems : List ICargoItem) : Option (List IPlacedItem × List ICargoItem) :=
  if shouldUsePatternPacking config gitems then
    match tryPatternPackingForGroup expired fuel gitems container acc.1 with
    | none => none
    | some patternResult =>
        if patternResult.1.length > 0 then
          some (acc.1 ++ patternResult.1, acc.2 ++ patternResult.2)
        else some (gitems.foldl (perUnitStep container) acc)
  else some (gitems.foldl (perUnitStep container) acc)

/-- The group loop of run, indexed so each group has its own budget oracle. -/
def runGroups (config : IPackingConfig) (fuel : ℕ) (expired : ℕ → ℕ → Bool)
    (container : IContainer) :
    ℕ → List (GroupKey × List ICargoItem) → List IPlacedItem × List ICargoItem →
    Option (List IPlacedItem × List ICargoItem)
  | _, [], acc => some acc
  | gi, g :: rest, acc =>
      match processGroup config fuel (expired gi) container acc g.2 with
      | none => none
      | some acc2 => runGroups config fuel expired container (gi + 1) rest acc2

/-- run of the PackingEngine: expand, sort by descending volume, group,
process every group, and compute the merged metrics. The expired oracle
models the wall-clock pattern budget per group, fuel bounds the coil loop,
and executionTime is pinned to zero. -/
def run (config : IPackingConfig) (fuel : ℕ) (expired : ℕ → ℕ → Bool)
    (items : List ICargoItem) (container : IContainer) : Option ILoadingResult :=
  let expandedItems := expandItems items
  let sortedItems := sortBy (fun a b => decide (getVol b < getVol a)) expandedItems
  let itemGroups := groupIdenticalItems sortedItems
  (runGroups config fuel expired container 0 itemGroups ([], [])).map (fun acc =>
    let containerVol := container.dimensions.length * container.dimensions.width *
      container.dimensions.height
    let itemsVol := acc.1.foldl (fun a p =>
      a + p.dimensions.length * p.dimensions.width * p.dimensions.height) 0
    { placedItems := acc.1
      unplacedItems := acc.2
      utilizationPercent := if decide (containerVol > 0) then itemsVol / containerVol * 100 else 0
      totalWeight := acc.1.foldl (fun a p => a + p.item.weight.getD 0) 0
      executionTime := 0 })

end PackingEngine

/-! ## Concrete fixtures used by the claim theorems -/

/-- A 10 by 10 by 10 container. -/
def cont10 : IContainer := { dimensions := IDimensions.mk 10 10 10, maxWeight := 1000 }

/-- Five identical rolls of diameter 2 and length 2. -/
def rollA : ICargoItem :=
  { id := "A", type := CargoType.roll, weight := none, quantity := 5,
    dimensions := none, rollDimensions := some (IRollDimensions.mk 2 2),
    palletDimensions := none, isPalletized := none }

/-- Five identical rolls of diameter 1.8 and length 1.8. -/
def rollB : ICargoItem :=
  { rollA with id := "B", rollDimensions := some (IRollDimensions.mk 1.8 1.8) }

/-- One palletized roll of diameter 2 and length 2 on a 2 by 2 by 0.1 pallet. -/
def palRoll : ICargoItem :=
  { id := "P", type := CargoType.roll, weight := none, quantity := 1,
    dimensions := none, rollDimensions := some (IRollDimensions.mk 2 2),
    palletDimensions := some (IDimensions.mk 2 2 0.1), isPalletized := some true }

/-- Five rolls with a degenerate negative diameter. -/
def negRoll : ICargoItem :=
  { id := "N", type := CargoType.roll, weight := none, quantity := 5,
    dimensions := none, rollDimensions := some (IRollDimensions.mk (-2) 5),
    palletDimensions := none, isPalletized := none }

/-- A pattern budget oracle under which the budget never expires. -/
def noExpiry : ℕ → ℕ → Bool := fun _ _ => false

/-- Four cubes of edge 5, which tile the container floor at height 5. -/
def cubeX : ICargoItem :=
  { id := "X", type := CargoType.box, weight := none, quantity := 4,
    dimensions := some (IDimensions.mk 5 5 5), rollDimensions := none,
    palletDimensions := none, isPalletized := none }

/-- Four rolls of diameter 2 and length 5, placed vertically on the cubes. -/
def rollV : ICargoItem :=
  { id := "V", type := CargoType.roll, weight := none, quantity := 4,
    dimensions := none, rollDimensions := some (IRollDimensions.mk 2 5),
    palletDimensions := none, isPalletized := none }

/-- Five rolls of diameter 1.9 and length 4.05, whose coil placements end
with their top faces exactly at height 5. -/
def rollC : ICargoItem :=
  { id := "C", type := CargoType.roll, weight := none, quantity := 5,
    dimensions := none, rollDimensions := some (IRollDimensions.mk 1.9 4.05),
    palletDimensions := none, isPalletized := none }

/-! ## Symmetry of the intersection predicate (claim C10) -/

theorem checkIntervalOverlap_symm (a la b lb : ℚ) :
    GeometryUtils.checkIntervalOverlap a la b lb =
      GeometryUtils.checkIntervalOverlap b lb a la := by
  unfold GeometryUtils.checkIntervalOverlap
  rw [Bool.eq_iff_iff]
  simp only [Bool.and_eq_true, decide_eq_true_eq]
  constructor <;> rintro ⟨h1, h2⟩ <;> exact ⟨by linarith, by linarith⟩

theorem checkAABBIntersection_symm (p1 : IVector3) (d1 : IDimensions)
    (p2 : IVector3) (d2 : IDimensions) :
    GeometryUtils.checkAABBIntersection p1 d1 p2 d2 =
      GeometryUtils.checkAABBIntersection p2 d2 p1 d1 := by
  unfold GeometryUtils.checkAABBIntersection
  rw [Bool.eq_iff_iff]
  simp only [Bool.and_eq_true, decide_eq_true_eq, and_assoc]
  constructor <;> intro h <;>
    obtain ⟨h1, h2, h3, h4, h5, h6⟩ := h <;>
    exact ⟨by linarith, by linarith, by linarith, by linarith, by linarith, by linarith⟩

theorem decide_lt_congr (a b c d : ℚ) (h1 : a = c) (h2 : b = d) :
    decide (a < b) = decide (c < d) := by rw [h1, h2]

theorem checkCylinderCylinderIntersection_symm (p1 : IVector3) (d1 : IDimensions)
    (o1 : RollOrientation) (p2 : IVector3) (d2 : IDimensions) (o2 : RollOrientation) :
    GeometryUtils.checkCylinderCylinderIntersection p1 d1 o1 p2 d2 o2 =
      GeometryUtils.checkCylinderCylinderIntersection p2 d2 o2 p1 d1 o1 := by
  cases o1 <;> cases o2 <;>
    simp only [GeometryUtils.checkCylinderCylinderIntersection]
  case vertical.vertical =>
    rw [checkIntervalOverlap_symm p2.y d2.height p1.y d1.height]
    cases GeometryUtils.checkIntervalOverlap p1.y d1.height p2.y d2.height
    · rfl
    · exact decide_lt_congr _ _ _ _ (by ring) (by ring)
  case horizontal.horizontal =>
    cases hx1 : decide (d1.length > d1.width) <;> cases hx2 : decide (d2.length > d2.width) <;>
      simp only [Bool.false_eq_true, Bool.true_eq_false, if_false, reduceIte,
        Bool.not_true, Bool.not_false, if_true]
    · rw [checkIntervalOverlap_symm p2.z d2.width p1.z d1.width]
      cases GeometryUtils.checkIntervalOverlap p1.z d1.width p2.z d2.width
      · rfl
      · exact decide_lt_congr _ _ _ _ (by ring) (by ring)
    · rw [checkIntervalOverlap_symm p2.x d2.length p1.x d1.length]
      cases GeometryUtils.checkIntervalOverlap p1.x d1.length p2.x d2.length
      · rfl
      · exact decide_lt_congr _ _ _ _ (by ring) (by ring)

/-- C10. Symmetry of the intersection predicate: checkIntersection gives the
same verdict when the two items are swapped, for every position, dimension
pair, shape kind pair and orientation pair, so the pairwise no-overlap check
does not depend on placement order. -/
theorem checkIntersection_symm (p1 : IVector3) (d1 : IDimensions)
    (p2 : IVector3) (d2 : IDimensions) (t1 t2 : CargoType)
    (o1 o2 : RollOrientation) :
    GeometryUtils.checkIntersection p1 d1 p2 d2 t1 t2 o1 o2 =
      GeometryUtils.checkIntersection p2 d2 p1 d1 t2 t1 o2 o1 := by
  unfold GeometryUtils.checkIntersection
  cases t1 <;> cases t2
  case roll.roll =>
    rw [if_pos ⟨rfl, rfl⟩, if_pos ⟨rfl, rfl⟩]
    exact checkCylinderCylinderIntersection_symm p1 d1 o1 p2 d2 o2
  all_goals rw [if_neg (by decide)]
  all_goals conv_rhs => rw [if_neg (by decide)]
  all_goals rw [checkAABBIntersection_symm p1 d1 p2 d2]
  all_goals cases GeometryUtils.checkAABBIntersection p2 d2 p1 d1 <;> rfl

/-! ## Mixed-orientation roll/roll pairs (claim C6) -/

/-- C6 counterexample. For a vertical and a horizontal roll far apart, the
AABB test reports no overlap, yet checkIntersection reports an
intersection, so checkIntersection does not return the AABB result on
mixed-orientation roll pairs. -/
theorem c6_mixed_rolls_not_aabb :
    GeometryUtils.checkIntersection (IVector3.mk 0 0 0) (IDimensions.mk 1 1 1)
      (IVector3.mk 5 5 5) (IDimensions.mk 1 1 1)
      CargoType.roll CargoType.roll RollOrientation.vertical RollOrientation.horizontal = true ∧
    GeometryUtils.checkAABBIntersection (IVector3.mk 0 0 0) (IDimensions.mk 1 1 1)
      (IVector3.mk 5 5 5) (IDimensions.mk 1 1 1) = false := by
  constructor <;> decide

/-- C6 as amended. For every pair of roll items whose orientations differ,
checkIntersection returns true unconditionally (a conservative intersection
verdict), regardless of positions and dimensions; the AABB test is not
consulted on this path. -/
theorem c6_mixed_rolls_conservative (p1 : IVector3) (d1 : IDimensions)
    (p2 : IVector3) (d2 : IDimensions) (o1 o2 : RollOrientation) (h : o1 ≠ o2) :
    GeometryUtils.checkIntersection p1 d1 p2 d2 CargoType.roll CargoType.roll o1 o2 = true := by
  unfold GeometryUtils.checkIntersection
  rw [if_pos ⟨rfl, rfl⟩]
  cases o1 <;> cases o2
  · exact absurd rfl h
  · rfl
  · rfl
  · exact absurd rfl h

/-! ## No-overlap invariant fails on the coil path (claim C1) -/

/-- C1 evidence. Running the engine on two roll groups (diameters 2 and
1.8, five units each, both routed through the coil path) yields a result
whose first and sixth placed items are reported as intersecting by
checkIntersection at their final positions, resolved dimensions, shape
kinds and orientations: the coil path performs no collision check against
previously placed items, so the no-overlap invariant is violated. -/
theorem c1_coil_path_overlap :
    (PackingEngine.run PackingEngine.defaultConfig 100 noExpiry [rollA, rollB] cont10).map
      (fun res =>
        match res.placedItems.get? 0, res.placedItems.get? 5 with
        | some p0, some p5 =>
            GeometryUtils.checkIntersection p0.position p0.dimensions
              p5.position p5.dimensions p0.item.type p5.item.type
              (p0.orientation.getD RollOrientation.vertical)
              (p5.orientation.getD RollOrientation.vertical)
        | _, _ => false) = some true := by decide

/-! ## Containment invariant fails on the coil path (claim C2) -/

/-- C2 evidence. Running the engine on one group of five rolls of diameter
2 in the 10 by 10 by 10 container yields a placed item (the fifth coil,
centered at x = 9 but recorded as a minimum corner with bounding length 2)
for which isWithinBounds is false: the coil path stores center coordinates
where the engine expects minimum corners and validates nothing, so the
containment invariant is violated. -/
theorem c2_coil_path_out_of_bounds :
    (PackingEngine.run PackingEngine.defaultConfig 100 noExpiry [rollA] cont10).map
      (fun res => res.placedItems.any (fun p =>
        !(GeometryUtils.isWithinBounds p.position p.dimensions cont10.dimensions))) =
      some true := by decide

/-! ## Palletized floor-only invariant fails on the coil path (claim C4) -/

/-- C4 evidence. A single palletized roll (quantity one, palletized groups
always enter the pattern path) is placed by the coil algorithm at position
y = 1, its center height, far above the floor tolerance: the coil path
ignores the palletized floor-only rule that PrecisePlacer and BoxStrategy
enforce. -/
theorem c4_palletized_placed_above_floor :
    (PackingEngine.run PackingEngine.defaultConfig 100 noExpiry [palRoll] cont10).map
      (fun res => res.placedItems.map (fun p => (p.item.isPalletized, p.position.y))) =
      some [(some true, 1)] := by decide

/-! ## Divergence on a degenerate roll (claim C9) -/

theorem coilLoop_diverges (c : CoilLoading.ContainerDims) (it : CoilLoading.ItemDims)
    (radius step z : ℚ) (nrm stg : ℤ)
    (hq : 0 < it.quantity) (hstep : step ≤ 0) (hrad : radius + radius ≤ c.height)
    (hnrm : nrm ≤ 0) (hstg : stg ≤ 0) :
    ∀ (fuel row : ℕ) (acc : List CoilLoading.CoilPlaced),
      CoilLoading.coilLoop c it radius step z nrm stg fuel 0 row acc = none := by
  intro fuel
  induction fuel with
  | zero => intro row acc; rfl
  | succ n ih =>
      intro row acc
      simp only [CoilLoading.coilLoop]
      rw [if_pos hq]
      have hy : ¬(radius + (row : ℚ) * step + radius > c.height) := by
        have hrs : (row : ℚ) * step ≤ 0 :=
          mul_nonpos_of_nonneg_of_nonpos (Nat.cast_nonneg row) hstep
        linarith
      rw [decide_eq_false hy]
      have hl0 : (if row % 2 ≠ 0 then stg else nrm).toNat = 0 := by
        split
        · exact Int.toNat_of_nonpos hstg
        · exact Int.toNat_of_nonpos hnrm
      rw [hl0]
      exact ih (row + 1) acc

/-- The expanded unit items of the degenerate roll catalog. -/
def negUnits : List ICargoItem := PackingEngine.expandItems [negRoll]

/-- C9 evidence. On a roll catalog whose diameter is negative (quantity
five, so the group enters the coil path), the coil row loop makes no
progress and never trips the ceiling check, so run never returns: for
every fuel bound and every budget oracle the model yields none, meaning
the source loops forever instead of treating the degenerate item as
unplaceable. -/
theorem c9_run_diverges_on_negative_diameter (fuel : ℕ) (expired : ℕ → ℕ → Bool) :
    PackingEngine.run PackingEngine.defaultConfig fuel expired [negRoll] cont10 = none := by
  have hcoil : ∀ f : ℕ, CoilLoading.calculateCoilLoading f
      (CoilLoading.ContainerDims.mk 10 10 10)
      (CoilLoading.ItemDims.mk "N-0" (-2) 5 5) = none := by
    intro f
    unfold CoilLoading.calculateCoilLoading
    exact Option.map_eq_none'.mpr
      (coilLoop_diverges _ _ _ _ _ _ _ (by decide) (by decide) (by decide)
        (by decide) (by decide) f 0 [])
  have htry : ∀ (e : ℕ → Bool),
      PackingEngine.tryPatternPackingForGroup e fuel negUnits cont10 [] = none := by
    intro e
    have hform : PackingEngine.tryPatternPackingForGroup e fuel negUnits cont10 [] =
        (CoilLoading.calculateCoilLoading fuel (CoilLoading.ContainerDims.mk 10 10 10)
          (CoilLoading.ItemDims.mk "N-0" (-2) 5 5)).map
          (PackingEngine.mapCoilResult (IRollDimensions.mk (-2) 5) negUnits) := rfl
    rw [hform, hcoil fuel]
    rfl
  have hgroups : PackingEngine.groupIdenticalItems
      (sortBy (fun a b => decide (PackingEngine.getVol b < PackingEngine.getVol a))
        (PackingEngine.expandItems [negRoll])) =
      [(PackingEngine.getItemKey (PackingEngine.ensurePalletDimensions negRoll), negUnits)] := by
    decide
  unfold PackingEngine.run
  apply Option.map_eq_none'.mpr
  rw [hgroups]
  simp only [PackingEngine.runGroups]
  have hpg : PackingEngine.processGroup PackingEngine.defaultConfig fuel (expired 0) cont10
      ([], []) negUnits = none := by
    unfold PackingEngine.processGroup
    rw [if_pos (by decide)]
    rw [htry (expired 0)]
  rw [hpg]

/-! ## Quantity conservation (claim C3) -/

theorem length_expandItems (items : List ICargoItem) :
    (PackingEngine.expandItems items).length = (items.map ICargoItem.quantity).sum := by
  induction items with
  | nil => rfl
  | cons it rest ih =>
      simp only [PackingEngine.expandItems, List.flatMap_cons, List.length_append,
        List.length_map, List.length_range, List.map_cons, List.sum_cons] at ih ⊢
      omega

/-- The total number of items over a group list. -/
def groupsTotal (gs : List (PackingEngine.GroupKey × List ICargoItem)) : ℕ :=
  (gs.map (fun g => g.2.length)).sum

theorem groupsTotal_addToGroups (gs : List (PackingEngine.GroupKey × List ICargoItem))
    (k : PackingEngine.GroupKey) (it : ICargoItem) :
    groupsTotal (PackingEngine.addToGroups gs k it) = groupsTotal gs + 1 := by
  induction gs with
  | nil => rfl
  | cons g rest ih =>
      obtain ⟨k1, l⟩ := g
      simp only [PackingEngine.addToGroups]
      by_cases h : k1 = k
      · rw [if_pos h]
        simp only [groupsTotal, List.map_cons, List.sum_cons, List.length_append,
          List.length_cons, List.length_nil]
        omega
      · rw [if_neg h]
        simp only [groupsTotal, List.map_cons, List.sum_cons] at ih ⊢
        omega

theorem groupsTotal_fold (items : List ICargoItem) :
    ∀ gs, groupsTotal (items.foldl
      (fun gs it => PackingEngine.addToGroups gs (PackingEngine.getItemKey it) it) gs) =
      groupsTotal gs + items.length := by
  induction items with
  | nil => intro gs; rfl
  | cons it rest ih =>
      intro gs
      simp only [List.foldl_cons, List.length_cons]
      rw [ih, groupsTotal_addToGroups]
      omega

theorem groupsTotal_groupIdenticalItems (items : List ICargoItem) :
    groupsTotal (PackingEngine.groupIdenticalItems items) = items.length := by
  unfold PackingEngine.groupIdenticalItems
  rw [groupsTotal_fold]
  simp [groupsTotal]

theorem placeLoop_conservation (container : IContainer) (existing : List IPlacedItem)
    (items : List ICargoItem) :
    ∀ (slots : List PatternGenerator.IPlacementSlot) (placedAcc : List IPlacedItem)
      (remAcc : List ICargoItem),
      (PrecisePlacer.placeLoop container existing items slots placedAcc remAcc).1.length +
        (PrecisePlacer.placeLoop container existing items slots placedAcc remAcc).2.length =
      placedAcc.length + remAcc.length + items.length := by
  induction items with
  | nil => intro slots placedAcc remAcc; simp [PrecisePlacer.placeLoop]
  | cons it rest ih =>
      intro slots placedAcc remAcc
      cases slots with
      | nil =>
          simp only [PrecisePlacer.placeLoop]
          rw [ih]
          simp only [List.length_append, List.length_cons, List.length_nil]
          omega
      | cons slot srest =>
          simp only [PrecisePlacer.placeLoop]
          split
          · rw [ih]
            simp only [List.length_append, List.length_cons, List.length_nil]
            omega
          · split
            · rw [ih]
              simp only [List.length_append, List.length_cons, List.length_nil]
              omega
            · rw [ih]
              simp only [List.length_append, List.length_cons, List.length_nil]
              omega

theorem placeItemsFromSlots_conservation (items : List ICargoItem)
    (slots : List PatternGenerator.IPlacementSlot) (container : IContainer)
    (placedItems : List IPlacedItem) :
    (PrecisePlacer.placeItemsFromSlots items slots container placedItems).1.length +
      (PrecisePlacer.placeItemsFromSlots items slots container placedItems).2.length =
      items.length := by
  unfold PrecisePlacer.placeItemsFromSlots
  rw [placeLoop_conservation]
  simp

theorem tryPatternPackingForGroup_conservation (expired : ℕ → Bool) (fuel : ℕ)
    (items : List ICargoItem) (container : IContainer)
    (existingPlaced : List IPlacedItem) (p : List IPlacedItem) (r : List ICargoItem)
    (h : PackingEngine.tryPatternPackingForGroup expired fuel items container
      existingPlaced = some (p, r)) :
    p.length + r.length = items.length := by
  cases items with
  | nil =>
      simp only [PackingEngine.tryPatternPackingForGroup, Option.some.injEq,
        Prod.mk.injEq] at h
      obtain ⟨hp, hr⟩ := h
      subst hp
      subst hr
      rfl
  | cons first rest =>
      simp only [PackingEngine.tryPatternPackingForGroup] at h
      split at h
      · -- roll group
        split at h
        · -- no roll dimensions
          simp only [Option.some.injEq, Prod.mk.injEq] at h
          obtain ⟨hp, hr⟩ := h
          subst hp
          subst hr
          simp
        · -- coil loading
          obtain ⟨algoResult, halgo, hpr⟩ := Option.map_eq_some'.mp h
          simp only [PackingEngine.mapCoilResult] at hpr
          have hp := congrArg Prod.fst hpr
          have hr := congrArg Prod.snd hpr
          dsimp only at hp hr
          have hlen : p.length = min algoResult.1.length (first :: rest).length := by
            rw [← hp, List.length_map, List.length_zip algoResult.1 (first :: rest)]
          have hrlen : r.length = (first :: rest).length - p.length := by
            rw [← hr, List.length_drop, hp]
          have hmin : p.length ≤ (first :: rest).length := by
            rw [hlen]
            exact min_le_right _ _
          omega
      · -- box or pallet group
        split at h
        · simp only [Option.some.injEq, Prod.mk.injEq] at h
          obtain ⟨hp, hr⟩ := h
          subst hp
          subst hr
          simp
        · split at h
          · simp only [Option.some.injEq, Prod.mk.injEq] at h
            obtain ⟨hp, hr⟩ := h
            subst hp
            subst hr
            simp
          · simp only [Option.some.injEq] at h
            rename_i best ev heq hne
            have hc := placeItemsFromSlots_conservation (first :: rest) ev.slots
              container existingPlaced
            rw [h] at hc
            exact hc

theorem perUnitStep_total (container : IContainer)
    (acc : List IPlacedItem × List ICargoItem) (item : ICargoItem) :
    (PackingEngine.perUnitStep container acc item).1.length +
      (PackingEngine.perUnitStep container acc item).2.length =
      acc.1.length + acc.2.length + 1 := by
  unfold PackingEngine.perUnitStep
  split
  · split
    · simp only [List.length_append, List.length_cons, List.length_nil]
      omega
    · simp only [List.length_append, List.length_cons, List.length_nil]
      omega
  · simp only [List.length_append, List.length_cons, List.length_nil]
    omega

theorem foldl_perUnit_total (container : IContainer) (gitems : List ICargoItem) :
    ∀ acc : List IPlacedItem × List ICargoItem,
      (gitems.foldl (PackingEngine.perUnitStep container) acc).1.length +
        (gitems.foldl (PackingEngine.perUnitStep container) acc).2.length =
      acc.1.length + acc.2.length + gitems.length := by
  induction gitems with
  | nil => intro acc; rfl
  | cons it rest ih =>
      intro acc
      simp only [List.foldl_cons, List.length_cons]
      rw [ih, perUnitStep_total]
      omega

theorem processGroup_conservation (config : PackingEngine.IPackingConfig) (fuel : ℕ)
    (expired : ℕ → Bool) (container : IContainer)
    (acc acc2 : List IPlacedItem × List ICargoItem) (gitems : List ICargoItem)
    (h : PackingEngine.processGroup config fuel expired container acc gitems = some acc2) :
    acc2.1.length + acc2.2.length = acc.1.length + acc.2.length + gitems.length := by
  unfold PackingEngine.processGroup at h
  split at h
  · split at h
    · simp at h
    · rename_i pr heq
      split at h
      · simp only [Option.some.injEq] at h
        have hc := tryPatternPackingForGroup_conservation expired fuel gitems container
          acc.1 pr.1 pr.2 heq
        rw [← h]
        simp only [List.length_append]
        omega
      · simp only [Option.some.injEq] at h
        rw [← h, foldl_perUnit_total]
  · simp only [Option.some.injEq] at h
    rw [← h, foldl_perUnit_total]

theorem runGroups_conservation (config : PackingEngine.IPackingConfig) (fuel : ℕ)
    (expired : ℕ → ℕ → Bool) (container : IContainer)
    (gs : List (PackingEngine.GroupKey × List ICargoItem)) :
    ∀ (gi : ℕ) (acc acc2 : List IPlacedItem × List ICargoItem),
      PackingEngine.runGroups config fuel expired container gi gs acc = some acc2 →
      acc2.1.length + acc2.2.length = acc.1.length + acc.2.length + groupsTotal gs := by
  induction gs with
  | nil =>
      intro gi acc acc2 h
      simp only [PackingEngine.runGroups, Option.some.injEq] at h
      rw [← h]
      rfl
  | cons g rest ih =>
      intro gi acc acc2 h
      simp only [PackingEngine.runGroups] at h
      cases hg : PackingEngine.processGroup config fuel (expired gi) container acc g.2 with
      | none => rw [hg] at h; simp at h
      | some accMid =>
          rw [hg] at h
          have h1 := processGroup_conservation config fuel (expired gi) container
            acc accMid g.2 hg
          have h2 := ih (gi + 1) accMid acc2 h
          simp only [groupsTotal, List.map_cons, List.sum_cons] at h2 ⊢
          omega

/-- C3. Quantity conservation: whenever run returns a result, the number of
placed items plus the number of unplaced items equals the sum of the
quantity fields of the input catalog, for every configuration, fuel bound,
budget oracle, catalog and container: every expanded unit item lands in
exactly one of the two lists on every placement path. -/
theorem c3_quantity_conservation (config : PackingEngine.IPackingConfig) (fuel : ℕ)
    (expired : ℕ → ℕ → Bool) (items : List ICargoItem) (container : IContainer)
    (res : ILoadingResult)
    (h : PackingEngine.run config fuel expired items container = some res) :
    res.placedItems.length + res.unplacedItems.length =
      (items.map ICargoItem.quantity).sum := by
  unfold PackingEngine.run at h
  obtain ⟨acc, hacc, hres⟩ := Option.map_eq_some'.mp h
  have h1 := runGroups_conservation config fuel expired container _ 0 ([], []) acc hacc
  have h2 := groupsTotal_groupIdenticalItems
    (sortBy (fun a b => decide (PackingEngine.getVol b < PackingEngine.getVol a))
      (PackingEngine.expandItems items))
  have h3 := length_sortBy
    (fun a b => decide (PackingEngine.getVol b < PackingEngine.getVol a))
    (PackingEngine.expandItems items)
  have h4 := length_expandItems items
  have h5 : res.placedItems = acc.1 := by rw [← hres]
  have h6 : res.unplacedItems = acc.2 := by rw [← hres]
  rw [h5, h6]
  simp only [List.length_nil] at h1
  omega

/-- C3 witness: run on the empty catalog returns the empty result, and zero
placed plus zero unplaced equals the empty quantity sum. -/
theorem c3_quantity_conservation_witness :
    (ILoadingResult.mk [] [] 0 0 0).placedItems.length +
      (ILoadingResult.mk [] [] 0 0 0).unplacedItems.length =
      (([] : List ICargoItem).map ICargoItem.quantity).sum :=
  c3_quantity_conservation PackingEngine.defaultConfig 1 noExpiry [] cont10
    (ILoadingResult.mk [] [] 0 0 0) (by decide)

/-! ## Pattern-packing gating (claim C7) -/

/-- C7. Pattern-packing gating: the gate of the run loop opens exactly when
pattern packing is enabled, the group shape is pallet, box or roll, and the
group is palletized or at least the configured minimum size; a group with
the gate closed is processed purely by the per-unit strategy loop; a group
with the gate open is decided by the bulk pattern result, falling back to
the per-unit loop only when that result placed nothing. -/
theorem c7_pattern_gating (config : PackingEngine.IPackingConfig) (fuel : ℕ)
    (expired : ℕ → Bool) (container : IContainer)
    (acc : List IPlacedItem × List ICargoItem)
    (first : ICargoItem) (rest : List ICargoItem) :
    (PackingEngine.shouldUsePatternPacking config (first :: rest) = true ↔
      (config.enablePatternPacking = true ∧
       (first.type = CargoType.pallet ∨ first.type = CargoType.box ∨
         first.type = CargoType.roll) ∧
       (first.isPalletized.getD false = true ∨
         config.minItemsForPatterns ≤ (first :: rest).length))) ∧
    (PackingEngine.shouldUsePatternPacking config (first :: rest) = false →
      PackingEngine.processGroup config fuel expired container acc (first :: rest) =
        some ((first :: rest).foldl (PackingEngine.perUnitStep container) acc)) ∧
    (PackingEngine.shouldUsePatternPacking config (first :: rest) = true →
      ∀ pr : List IPlacedItem × List ICargoItem,
        PackingEngine.tryPatternPackingForGroup expired fuel (first :: rest) container
          acc.1 = some pr →
        PackingEngine.processGroup config fuel expired container acc (first :: rest) =
          some (if 0 < pr.1.length then (acc.1 ++ pr.1, acc.2 ++ pr.2)
                else (first :: rest).foldl (PackingEngine.perUnitStep container) acc)) := by
  refine ⟨?_, ?_, ?_⟩
  · simp only [PackingEngine.shouldUsePatternPacking, Bool.and_eq_true,
      decide_eq_true_eq, Bool.or_eq_true, ge_iff_le, and_assoc]
  · intro hgate
    simp only [PackingEngine.processGroup, hgate, Bool.false_eq_true, if_false]
  · intro hgate pr hpr
    simp only [PackingEngine.processGroup, hgate, if_true, hpr]
    by_cases hl : 0 < pr.1.length
    · rw [if_pos hl, if_pos hl]
    · rw [if_neg hl, if_neg hl]

/-! ## Utilization and weight metrics (claim C8) -/

/-- The sum of the placed bounding-volume products, as the metric step of
run computes it. -/
def sumPlacedVolumes (l : List IPlacedItem) : ℚ :=
  l.foldl (fun a p =>
    a + p.dimensions.length * p.dimensions.width * p.dimensions.height) 0

/-- The sum of the placed item weights with missing weights as zero. -/
def sumPlacedWeights (l : List IPlacedItem) : ℚ :=
  l.foldl (fun a p => a + p.item.weight.getD 0) 0

/-- C8 counterexample. Five rolls of diameter 2 and length 2 in the 1000
volume container: the engine reports utilization 4 percent (bounding-box
volume 8 per roll), while the claim value using the cylinder volume pi
times r squared times length per placed roll would be pi percent, and 4 is
not that value. -/
theorem c8_roll_volume_counterexample :
    (PackingEngine.run PackingEngine.defaultConfig 100 noExpiry [rollA] cont10).map
      ILoadingResult.utilizationPercent = some 4 ∧
    ¬ ((4 : ℚ) = 5 * (jsPI * (2 / 2) ^ 2 * 2) / (10 * 10 * 10) * 100) := by
  constructor
  · decide
  · decide

/-- C8 as amended. Whenever run returns a result, its utilizationPercent is
the sum over the placed items of the resolved bounding-dimension products
(length times width times height, also for rolls) divided by the container
volume times 100, or 0 for a degenerate container, and its totalWeight is
the sum of the placed item weights with missing weights as zero. -/
theorem c8_metrics_amended (config : PackingEngine.IPackingConfig) (fuel : ℕ)
    (expired : ℕ → ℕ → Bool) (items : List ICargoItem) (container : IContainer)
    (res : ILoadingResult)
    (h : PackingEngine.run config fuel expired items container = some res) :
    res.utilizationPercent =
      (if decide (container.dimensions.length * container.dimensions.width *
          container.dimensions.height > 0) = true then
        sumPlacedVolumes res.placedItems /
          (container.dimensions.length * container.dimensions.width *
            container.dimensions.height) * 100
      else 0) ∧
    res.totalWeight = sumPlacedWeights res.placedItems := by
  unfold PackingEngine.run at h
  obtain ⟨acc, hacc, hres⟩ := Option.map_eq_some'.mp h
  refine ⟨?_, ?_⟩ <;> rw [← hres] <;> rfl

/-- C8 witness for the amended statement: the empty run. -/
theorem c8_metrics_amended_witness :
    (ILoadingResult.mk [] [] 0 0 0).utilizationPercent =
      (if decide (cont10.dimensions.length * cont10.dimensions.width *
          cont10.dimensions.height > 0) = true then
        sumPlacedVolumes (ILoadingResult.mk [] [] 0 0 0).placedItems /
          (cont10.dimensions.length * cont10.dimensions.width *
            cont10.dimensions.height) * 100
      else 0) ∧
    (ILoadingResult.mk [] [] 0 0 0).totalWeight =
      sumPlacedWeights (ILoadingResult.mk [] [] 0 0 0).placedItems :=
  c8_metrics_amended PackingEngine.defaultConfig 1 noExpiry [] cont10
    (ILoadingResult.mk [] [] 0 0 0) (by decide)

/-! ## Vertical-on-horizontal prohibition (claim C5) -/

/-- A horizontally placed roll lying along the x axis at the origin, with
its top face at height 2. -/
def hRollPlaced : IPlacedItem :=
  { itemId := "H-0"
    item := { id := "H", type := CargoType.roll, weight := none, quantity := 1,
              dimensions := none, rollDimensions := some (IRollDimensions.mk 2 5),
              palletDimensions := none, isPalletized := none }
    position := IVector3.mk 0 0 0
    rotation := JsRotation.num 0
    orientation := some RollOrientation.horizontal
    dimensions := IDimensions.mk 5 2 2 }

/-- A context holding only the horizontal roll. -/
def c5Context : IPackingContext := { container := cont10, placedItems := [hRollPlaced] }

/-- C5 evidence. The run-level invariant of the claim fails: four cubes
tile the floor at height 5, four vertical rolls are then placed on them at
y = 5 (legitimately, through RollStrategy.canPlaceAt), and a later roll
group routed through the coil path inserts horizontal rolls, with no
validation, whose top faces end exactly at height 5 beneath the vertical
rolls; in the final state a placed vertical roll above the floor has a
horizontally oriented roll in its supporting set. -/
theorem c5_vertical_ends_on_horizontal_via_coil :
    (PackingEngine.run PackingEngine.defaultConfig 100 noExpiry [cubeX, rollV, rollC]
      cont10).map (fun res => res.placedItems.any (fun p =>
        decide (p.item.type = CargoType.roll) &&
        decide (p.orientation = some RollOrientation.vertical) &&
        decide (p.position.y > 0.01) &&
        (RollStrategy.getSupportingItems p.position p.dimensions res.placedItems).any
          (fun s => decide (s.item.type = CargoType.roll) &&
            decide (s.orientation = some RollOrientation.horizontal)))) = some true := by
  decide

/-- The canPlaceAt half of claim C5, which does hold: RollStrategy.canPlaceAt
rejects every vertical roll placement at or above the floor threshold 0.01
whose supporting set (placed items whose top face touches the candidate
bottom) contains a horizontally oriented roll, for every item, position,
dimension choice and context. The run-level invariant still fails because
the coil path never consults canPlaceAt. -/
theorem c5_no_vertical_on_horizontal (item : ICargoItem) (pos : IVector3)
    (orient : RollStrategy.OrientationOption) (context : IPackingContext)
    (hv : orient.orientation = RollOrientation.vertical)
    (hy : 0.01 ≤ pos.y)
    (s : IPlacedItem)
    (hs : s ∈ RollStrategy.getSupportingItems pos orient.dimensions context.placedItems)
    (hroll : s.item.type = CargoType.roll)
    (hor : s.orientation = some RollOrientation.horizontal) :
    RollStrategy.canPlaceAt item pos orient context = false := by
  simp only [RollStrategy.canPlaceAt]
  cases hb : GeometryUtils.isWithinBounds pos orient.dimensions context.container.dimensions
  · rfl
  · cases hI : context.placedItems.any (fun other =>
        GeometryUtils.checkIntersection pos orient.dimensions other.position other.dimensions
          CargoType.roll other.item.type orient.orientation
          (other.orientation.getD RollOrientation.vertical))
    · have hc : decide (pos.y < 0.01) = false := by
        apply decide_eq_false
        exact not_lt.mpr hy
      rw [hc]
      cases hsup : RollStrategy.hasSufficientSupport pos orient.dimensions
          orient.orientation context.placedItems
      · rfl
      · rw [hv]
        have hany : (RollStrategy.getSupportingItems pos orient.dimensions
            context.placedItems).any (fun support =>
              decide (support.item.type = CargoType.roll ∧
                support.orientation = some RollOrientation.horizontal)) = true := by
          apply List.any_eq_true.mpr
          exact ⟨s, hs, decide_eq_true ⟨hroll, hor⟩⟩
        rw [hany]
        decide
    · rfl

/-- Instance of the canPlaceAt half: a vertical roll of diameter 2 proposed
at height 2, exactly on top of the horizontal roll, is rejected. -/
theorem c5_no_vertical_on_horizontal_witness :
    RollStrategy.canPlaceAt rollA (IVector3.mk 0 2 0)
      (RollStrategy.OrientationOption.mk (IDimensions.mk 2 2 2) 0 RollOrientation.vertical)
      c5Context = false :=
  c5_no_vertical_on_horizontal rollA (IVector3.mk 0 2 0)
    (RollStrategy.OrientationOption.mk (IDimensions.mk 2 2 2) 0 RollOrientation.vertical)
    c5Context rfl (by decide) hRollPlaced (by decide) rfl rfl

/-- C6 witness: the amended statement applied to the counterexample pair. -/
theorem c6_mixed_rolls_conservative_witness :
    GeometryUtils.checkIntersection (IVector3.mk 0 0 0) (IDimensions.mk 1 1 1)
      (IVector3.mk 5 5 5) (IDimensions.mk 1 1 1)
      CargoType.roll CargoType.roll RollOrientation.vertical RollOrientation.horizontal = true :=
  c6_mixed_rolls_conservative (IVector3.mk 0 0 0) (IDimensions.mk 1 1 1)
    (IVector3.mk 5 5 5) (IDimensions.mk 1 1 1)
    RollOrientation.vertical RollOrientation.horizontal (by decide)

end Load3D
